import Mathlib

/-!
Verification of the WFRP game-master bot (Go sources) against its
natural-language specification.

Shallow embedding conventions, applied uniformly below:

* Go strings are Lean `String`s; the algorithmic core works on `List Char`
  (`String.data`).  Go indexes strings by byte; every index the code computes
  is either the start of a pattern occurrence or such a start plus the byte
  length of the pattern, i.e. always a character boundary, so slicing by
  character position yields the same strings.  Where Go's `len` is used as a
  number (name length check, skill-word length check) we model it with the
  UTF-8 byte size.
* `rand.Intn n` results are oracle arguments of type `Fin n`.
* The injected LLM provider is an oracle `Option (String -> Except String
  String)` (`none` models a nil provider); each model function also returns
  the list of prompts it sent to the provider, which embeds the side effect
  "a network call was made".
* Mutexes are erased (sequential semantics), file-system side effects
  (`saveStep`, `SaveToFile`) are dropped, and log statements are dropped.
* `time.Time` values are `Int` nanosecond timestamps; formatted clock values
  ("15:04:05") that only ever flow into message text are modelled by
  `formatClock` (UTC; the zone offset never influences any claim).
* The repository file `game/character_creation.go` is stored double-encoded
  (its UTF-8 text was read as Mac-Roman and re-encoded); string literals
  below use the deterministically restored originals, e.g. "бросить".
  The restoration is a character-level bijection, so program behaviour is
  unchanged by it.
* Go `fmt.Sscanf` rejects the scan formats "*%*HP: %d", "*%*XP: %d",
  "%*[damage ]*%d", "%*[healed ]*%d" and "%*[xp ]*%d" on every input: either
  the leading literal `*` fails to match, or the unsupported verbs `%*`/`%[`
  make the scan error out.  Those scans are modelled as constantly-failing
  parsers, each marked by a comment at its definition.
-/

set_option maxRecDepth 200000

/-- Character-level model of Go `unicode.ToLower` restricted to the
alphabets that occur in this code base: ASCII letters and Russian
Cyrillic (А..Я and Ё). -/
def goLowerChar (c : Char) : Char :=
  if 0x41 ≤ c.toNat ∧ c.toNat ≤ 0x5A then Char.ofNat (c.toNat + 32)
  else if 0x410 ≤ c.toNat ∧ c.toNat ≤ 0x42F then Char.ofNat (c.toNat + 32)
  else if c.toNat = 0x401 then Char.ofNat 0x451
  else c

/-- Whitespace as trimmed by Go `strings.TrimSpace` (ASCII part). -/
def isGoSpace (c : Char) : Bool :=
  c == ' ' || c == '\t' || c == '\n' || c == '\r' ||
  c == Char.ofNat 11 || c == Char.ofNat 12

/-- Model of `strings.TrimSpace` on character lists. -/
def trimL (l : List Char) : List Char :=
  ((l.dropWhile isGoSpace).reverse.dropWhile isGoSpace).reverse

/-- Does `pat` occur at the start of `s`? (Bool version, used by the
substring search below.) -/
def startsWithL : List Char → List Char → Bool
  | _, [] => true
  | [], _ :: _ => false
  | a :: s, b :: p => a == b && startsWithL s p

/-- Model of Go `strings.Contains` on character lists. -/
def containsL : List Char → List Char → Bool
  | s, pat =>
    if startsWithL s pat then true
    else match s with
      | [] => false
      | _ :: rest => containsL rest pat

/-- Index (in characters) of the first occurrence of `pat` in `s`,
modelling `strings.Index` (whose byte index always sits on the same
occurrence boundary). -/
def indexOfL : List Char → List Char → Option Nat
  | s, pat =>
    if startsWithL s pat then some 0
    else match s with
      | [] => none
      | _ :: rest =>
        match indexOfL rest pat with
        | some i => some (i + 1)
        | none => none

/-- UTF-8 byte size of a character list, modelling Go `len` on strings. -/
def utf8Len (l : List Char) : Nat := l.foldr (fun c n => c.utf8Size + n) 0

/-- Model of `strings.HasPrefix`. -/
def startsWithS (s pat : String) : Bool := startsWithL s.data pat.data

/-- Model of `strings.Contains`. -/
def containsS (s pat : String) : Bool := containsL s.data pat.data

/-- Model of `strings.ToLower` (see `goLowerChar`). -/
def goLower (s : String) : String := ⟨s.data.map goLowerChar⟩

/-- Model of `strings.TrimSpace`. -/
def goTrimSpace (s : String) : String := ⟨trimL s.data⟩

/-- Model of Go `len` on a string (UTF-8 byte count). -/
def goLen (s : String) : Nat := utf8Len s.data

/-- Split a character list at every occurrence of the separator character,
modelling `strings.Split` with a one-character separator. -/
def splitChar (sep : Char) : List Char → List (List Char)
  | [] => [[]]
  | c :: rest =>
    let r := splitChar sep rest
    if c == sep then [] :: r
    else match r with
      | [] => [[c]]
      | h :: t => (c :: h) :: t

/-- Model of `strings.Split s sep` for a one-character separator. -/
def goSplit (s : String) (sep : Char) : List String :=
  (splitChar sep s.data).map (fun l => ⟨l⟩)

/-- Model of `strings.Fields` (split around runs of whitespace). -/
def goFields (s : String) : List String :=
  ((splitChar ' ' ((s.data.map (fun c => if isGoSpace c then ' ' else c))))
    |>.filter (fun l => !l.isEmpty)).map (fun l => ⟨l⟩)

/-- Digit characters of a natural number, most significant first (the Nat
part of Go `%d` formatting).  Structural recursion on a fuel argument keeps
the function kernel-reducible; `fuel = n` always suffices because `n / 10`
strictly decreases, so the fuel-exhausted base case is unreachable.
`digitChar` is the character of one decimal digit. -/
def digitChar (m : Nat) : Char :=
  ['0', '1', '2', '3', '4', '5', '6', '7', '8', '9'].getD m '0'

/-- Fuel recursion for `natDigits` (see its doc comment). -/
def natDigitsGo : Nat → Nat → List Char
  | 0, n => [digitChar (n % 10)]
  | fuel + 1, n =>
    if n < 10 then [digitChar n]
    else natDigitsGo fuel (n / 10) ++ [digitChar (n % 10)]

/-- Digits of `n`, most significant first. -/
def natDigits (n : Nat) : List Char := natDigitsGo n n

/-- Character list of an integer, modelling Go `%d` / `fmt.Sprint` on int. -/
def intChars (i : Int) : List Char :=
  if i < 0 then '-' :: natDigits (-i).toNat else natDigits i.toNat

/-- String form of an integer as Go prints it. -/
def intStr (i : Int) : String := ⟨intChars i⟩

/-- Leading signed integer parser: the core of Go `fmt.Sscanf` with verb
`%d` (after whitespace skipping): optional sign, then at least one digit;
trailing characters are ignored. -/
def parseLeadingInt (l : List Char) : Option Int :=
  let digits (ds : List Char) : Option Nat :=
    let taken := ds.takeWhile (fun c => '0' ≤ c && c ≤ '9')
    if taken.isEmpty then none
    else some (taken.foldl (fun n c => n * 10 + (c.toNat - 48)) 0)
  match l with
  | '-' :: rest => (digits rest).map (fun n => -(n : Int))
  | '+' :: rest => (digits rest).map (fun n => (n : Int))
  | _ => (digits l).map (fun n => (n : Int))

/-- Skip the blanks that a space in a Go scan format consumes. -/
def skipScanSpaces (l : List Char) : List Char :=
  l.dropWhile (fun c => c == ' ' || c == '\t')

/-- Model of `strconv.Atoi`: optional sign followed by digits only. -/
def goAtoi (s : String) : Option Int :=
  let all (ds : List Char) : Option Nat :=
    if ds.isEmpty then none
    else if ds.all (fun c => '0' ≤ c && c ≤ '9') then
      some (ds.foldl (fun n c => n * 10 + (c.toNat - 48)) 0)
    else none
  match s.data with
  | '-' :: rest => (all rest).map (fun n => -(n : Int))
  | '+' :: rest => (all rest).map (fun n => (n : Int))
  | l => (all l).map (fun n => (n : Int))

/-- First (pattern, replacement) pair of `pairs` whose pattern occurs at the
head of `s`.  `strings.Replacer` never matches an empty pattern here
(no call site passes one). -/
def findRep (pairs : List (List Char × List Char)) (s : List Char) :
    Option (List Char × List Char) :=
  pairs.find? (fun pr => !pr.1.isEmpty && startsWithL s pr.1)

/-- Model of Go `strings.NewReplacer(...).Replace`: scan left to right, at
each position substitute the first matching pattern and continue after the
replaced text.  With a single pair this is exactly `strings.ReplaceAll`
for a non-empty pattern.  Structural recursion on a fuel argument keeps the
function kernel-reducible; every step consumes at least one character, so
starting the fuel at the text length makes the fuel-exhausted base case
unreachable. -/
def goReplacerGo (pairs : List (List Char × List Char)) : Nat → List Char → List Char
  | _, [] => []
  | 0, s => s
  | fuel + 1, c :: rest =>
    match findRep pairs (c :: rest) with
    | some (pat, rep) => rep ++ goReplacerGo pairs fuel (rest.drop (pat.length - 1))
    | none => c :: goReplacerGo pairs fuel rest

/-- The replacer on a character list (see `goReplacerGo`). -/
def goReplacerL (pairs : List (List Char × List Char)) (s : List Char) : List Char :=
  goReplacerGo pairs s.length s

/-- String-level wrapper for `goReplacerL`. -/
def goReplacer (pairs : List (String × String)) (s : String) : String :=
  ⟨goReplacerL (pairs.map (fun pr => (pr.1.data, pr.2.data))) s.data⟩

/-- Model of `strings.ReplaceAll` (non-empty pattern). -/
def goReplaceAll (s pat rep : String) : String := goReplacer [(pat, rep)] s

/-- Model of `strings.Trim s cutset`: remove leading and trailing characters
belonging to `cutset`. -/
def goTrim (s : String) (cutset : List Char) : String :=
  ⟨((s.data.dropWhile (fun c => cutset.contains c)).reverse.dropWhile
      (fun c => cutset.contains c)).reverse⟩

/-- Insert `ins` into `s` at character position `i` (Go slice concatenation
`s[:i] + ins + s[i:]` at a character boundary). -/
def insertAt (s : List Char) (i : Nat) (ins : List Char) : List Char :=
  s.take i ++ ins ++ s.drop i

/-- Two-digit zero-padded clock component. -/
def pad2 (n : Nat) : String := if n < 10 then "0" ++ toString n else toString n

/-- Clock formatting "15:04:05" of a nanosecond timestamp (UTC). -/
def formatClock (t : Int) : String :=
  let sec := ((t / 1000000000) % 86400).toNat
  pad2 (sec / 3600) ++ ":" ++ pad2 (sec % 3600 / 60) ++ ":" ++ pad2 (sec % 60)

/-- Lookup in an association list, with a default for a missing key (Go map
indexing yields the zero value when the key is absent). -/
def lookupD {α : Type} (l : List (String × α)) (k : String) (dflt : α) : α :=
  match l.find? (fun pr => pr.1 == k) with
  | some pr => pr.2
  | none => dflt

/-! Character-creation finite-state machine, from `game/character_creation.go`. -/

/-- States of the creation workflow (`CharacterCreationState`). -/
inductive CharacterCreationState where
  | CC_Idle | CC_Name | CC_Race | CC_Career | CC_Stats | CC_Skills | CC_Talents
  | CC_Gear | CC_Appearance | CC_Personality | CC_Review | CC_Save | CC_Complete
deriving DecidableEq, Repr

open CharacterCreationState

/-- All fields of `CharacterCreationData`; Go zero values are the defaults
(`Int` is the Go `Int` characteristic field, renamed because `Int` is the
Lean integer type). -/
structure CharacterCreationData where
  Name : String := ""
  Race : String := ""
  RaceBonusXP : Int := 0
  Class : String := ""
  Career : String := ""
  CareerRank : String := ""
  Status : String := ""
  StatusLevel : Int := 0
  CareerXP : Int := 0
  WS : Int := 0
  BS : Int := 0
  S : Int := 0
  T : Int := 0
  I : Int := 0
  Ag : Int := 0
  Dex : Int := 0
  Intl : Int := 0
  WP : Int := 0
  Fel : Int := 0
  HP : Int := 0
  Fate : Int := 0
  Fortune : Int := 0
  Resilience : Int := 0
  Resolve : Int := 0
  Movement : Int := 0
  Skills : List (String × Int) := []
  Talents : List String := []
  Gear : List (String × String) := []
  Money : Int := 0
  Age : Int := 0
  Height : String := ""
  HairColor : String := ""
  EyeColor : String := ""
  Features : String := ""
  Strengths : List String := []
  Weaknesses : List String := []
  Background : String := ""
  Motivation : String := ""
  TotalXP : Int := 0
  XPFromRace : Int := 0
  XPFromStats : Int := 0
  XPFromCareer : Int := 0
  XPSpent : Int := 0
  StatsMethod : String := ""
  CareerMethod : String := ""
  RaceMethod : String := ""
  BasePath : String := ""

/-- The state machine: current state plus owned data (the `LLMProvider`
capability is passed per call as an oracle, see the header comment). -/
structure CharacterCreator where
  State : CharacterCreationState
  Data : CharacterCreationData

/-- `NewCharacterCreator` from the source. -/
def NewCharacterCreator (basePath : String) : CharacterCreator :=
  { State := CC_Name, Data := { BasePath := basePath } }

/-- Oracle for the injected LLM capability: `none` is a nil provider,
`some f` answers `GenerateRequest` on a prompt with success or error. -/
def LLMProviderO : Type := Option (String → Except String String)

/-- Oracle values for every `rand.Intn` call site reachable from one
`ProcessInput` step; `rand.Intn n` is a value of `Fin n`. -/
structure RandSrc where
  race100 : Fin 100 := ⟨0, by decide⟩
  career100 : Fin 100 := ⟨0, by decide⟩
  careerSub : Fin 3 := ⟨0, by decide⟩
  c2roll1 : Fin 100 := ⟨0, by decide⟩
  c2roll2 : Fin 100 := ⟨0, by decide⟩
  c2roll3 : Fin 100 := ⟨0, by decide⟩
  c2sub1 : Fin 3 := ⟨0, by decide⟩
  c2sub2 : Fin 3 := ⟨0, by decide⟩
  c2sub3 : Fin 3 := ⟨0, by decide⟩
  stat10 : Fin 20 → Fin 10 := fun _ => ⟨0, by decide⟩
  money10 : Fin 10 := ⟨0, by decide⟩
  hair20 : Fin 20 := ⟨0, by decide⟩
  eye20 : Fin 20 := ⟨0, by decide⟩
  age20 : Fin 20 := ⟨0, by decide⟩
  height40 : Fin 40 := ⟨0, by decide⟩

/-- Result of one `ProcessInput` step: the returned `(message, bool)` pair,
the mutated creator, and the trace of prompts sent to the LLM provider. -/
structure StepResult where
  message : String
  advanced : Bool
  cc : CharacterCreator
  calls : List String

/-- `IsLLMQuestion` from the source: case-insensitive substring match of the
trimmed input against the fixed marker list (the list's duplicates are kept
as written). -/
def IsLLMQuestion (input : String) : Bool :=
  let s := goLower (goTrimSpace input)
  ["?", "как", "что такое", "объясни", "расскажи", "подробней", "помоги",
   "сможешь", "можешь", "расскажи", "?"].any (fun p => containsS s p)

/-- `WFRPPromptForState`: the per-state explanatory framing. -/
def WFRPPromptForState (st : CharacterCreationState) : String :=
  match st with
  | CC_Race => "Объясни, как выбрать расу в WFRP 4E. Какие расы доступны и какие дают бонусы?"
  | CC_Career => "Объясни, как выбрать карьеру в WFRP 4E. Что такое классы карьер и как они влияют на персонажа?"
  | CC_Stats => "Объясни систему характеристик WFRP 4E: Боевая Пригодность (ББ), Дистанция Боя (ДБ), Сила (СС), Инициатива (И), Ловкость (Л), Общение (О), Стойкость (СТ), Классовая (К). Как они влияют на персонажа и как распределять очки?"
  | CC_Skills => "Объясни систему навыков в WFRP 4E. Как выбираются навыки от расы и карьеры?"
  | CC_Talents => "Объясни систему талантов в WFRP 4E. Как получаются таланты?"
  | CC_Gear => "Объясни систему снаряжения в WFRP 4E. Как выбирается начальное снаряжение?"
  | CC_Appearance => "Объясни, как генерируется внешность персонажа в WFRP 4E (возраст, рост, волосы, глаза)."
  | _ => "Расскажи подробнее о создании персонажа в WFRP 4E."

/-- `generateReview`: the review summary rendered at the Review state. -/
def generateReview (d : CharacterCreationData) : String :=
  "📋 ПРОВЕРЬ ПЕРСОНАЖА:\n\n**Имя:** " ++ d.Name ++ "\n**Раса:** " ++ d.Race ++
  " (+" ++ intStr d.XPFromRace ++ " XP)\n**Карьера:** " ++ d.Class ++ " → " ++
  d.Career ++ " (+" ++ intStr d.XPFromCareer ++ " XP)\n\n**Характеристики:**\nББ: " ++
  intStr d.WS ++ ", ДБ: " ++ intStr d.BS ++ ", СС: " ++ intStr d.S ++ ", К: " ++
  intStr d.T ++ "\nИ: " ++ intStr d.I ++ ", Л: " ++ intStr d.Ag ++ ", О: " ++
  intStr d.WP ++ ", СТ: " ++ intStr d.Fel ++ "\n\n**Вторичные:**\nHP: " ++
  intStr d.HP ++ " | Судьба: " ++ intStr d.Fate ++ " | Движение: " ++
  intStr d.Movement ++ "\n\n**Внешность:**\nВозраст: " ++ intStr d.Age ++
  " | Рост: " ++ d.Height ++ "\nВолосы: " ++ d.HairColor ++ " | Глаза: " ++
  d.EyeColor ++ "\n\n**Характер:**\nСильные: " ++ String.intercalate ", " d.Strengths ++
  "\nСлабые: " ++ String.intercalate ", " d.Weaknesses ++ "\n\n**Опыт:** " ++
  intStr d.TotalXP ++ " всего\n\nНапиши \"да\" для сохранения или \"нет\" для отмены."

/-- `GetPrompt`: localized instructional text for the current state. -/
def GetPrompt (cc : CharacterCreator) : String :=
  match cc.State with
  | CC_Name => "Как тебя зовут, герой? Напиши имя персонажа.\n\n💡 Подсказки:\n• Просто напиши имя (например: Иван, Мария)\n• Напиши \"сгенери имя\" или \"сгенери сам\" - я придумаю имя сам"
  | CC_Race => "Выбери расу:\n1. Человек (+0 XP)\n2. Полурослик (+0 XP)\n3. Гном (+0 XP)\n4. Высший эльф (+0 XP)\n5. Лесной эльф (+0 XP)\n\nИли напиши \"бросить\" - случайный выбор (d100) +20 XP"
  | CC_Career => "Выбери способ выбора карьеры:\n1. Первый бросок принять (+50 XP)\n2. Три броска - выбрать одну (+25 XP)\n3. Выбрать самому (+0 XP)\n\nНапиши номер варианта."
  | CC_Stats => "Выбери способ генерации характеристик:\n1. Случайные без перестановок (+50 XP)\n2. Случайные с перестановкой (+25 XP)\n3. Ручное распределение 100 пунктов (0 XP)\n\nНапиши номер варианта.\nПримечание: минимум 4, максимум 18 на характеристику."
  | CC_Skills => "Теперь выберим навыки.\n\nОт расы ты получаешь:\n- 3 навыка с +5 шагами развития\n- 3 навыка с +3 шагами развития\n\nОт карьеры получаешь 40 шагов развития (распределить между 8 навыками).\n\nНапиши \"далее\" когда будешь готов к следующему шагу."
  | CC_Talents => "Выбери таланты.\n\nОт расы и карьеры ты получаешь таланты (перечислены в правилах).\n\nНапиши \"далее\" для продолжения."
  | CC_Gear => "Снаряжение.\n\nОт класса: базовые предметы (кинжал, кошелёк, одежда, еда на 1 день)\nОт карьеры: все предметы из строчки \"Имущество\" первой ступени\nДеньги: рассчитываются по статусу\n\nНапиши \"далее\" для продолжения."
  | CC_Appearance => "Определим внешность.\n\nИспользуй 2d10 (НЕ 1d100!):\n- Волосы: бросок по таблице волос твоей расы\n- Глаза: бросок по таблице глаз\n- Рост: формула зависит от расы\n- Возраст: минимальный возраст расы + 2d10\n\nНапиши \"далее\" для броска или опиши внешность сам."
  | CC_Personality => "Оживим персонажа!\n\nНапиши:\n1. Две-три сильные стороны характера (через запятую)\n2. Две-три слабые стороны (через запятую)\n3. Кратко: Откуда персонаж и чем занимался до этого?"
  | CC_Review => generateReview cc.Data
  | CC_Save => "Проверь персонажа выше. Напиши \x27да\x27 для сохранения или \x27нет\x27 для отмены."
  | _ => "Что-то пошло не так. Напиши /newchar для начала заново."

/-- `AskLLM`: question prompt construction plus answer cleanup; a nil
provider yields the apology text with no call made. -/
def AskLLM (question : String) (llm : LLMProviderO) :
    Except String String × List String :=
  match llm with
  | none => (.ok "Извини, LLM сейчас недоступен. Попробуй задать вопрос позже.", [])
  | some f =>
    let prompt := "Ты Game Master в Warhammer Fantasy Roleplay 4th Edition.\nОтвечай на вопрос игрока о правилах создания персонажа.\nОтветь кратко и по существу на русском языке.\n\nВопрос: " ++ question ++ "\n\nОтвет:"
    match f prompt with
    | .error e => (.error ("ошибка LLM: " ++ e), [prompt])
    | .ok answer => (.ok (goReplaceAll (goReplaceAll answer "**" "*") "_" " "), [prompt])

/-- `processLLMQuestion`: the Q&A side channel; never touches state or data. -/
def processLLMQuestion (st : CharacterCreationState) (input : String)
    (llm : LLMProviderO) : String × Bool × List String :=
  match AskLLM input llm with
  | (.error e, calls) =>
    ("Извини, произошла ошибка при запросе к LLM: " ++ e ++ "\n\nПопробуй ещё раз или спроси по-другому.", false, calls)
  | (.ok answer, calls) =>
    ("📚 *Пояснение:*\n\n" ++ answer ++ "\n\n---\n\n💡 *К текущему шагу:*\n\n" ++
      WFRPPromptForState st ++ "\n\nНапиши свой ответ или задай ещё вопрос.", true, calls)

/-- Fixed name-generation prompt of `generateName`. -/
def nameGenPrompt : String :=
  "Сгенерируй одно имя персонажа для Warhammer Fantasy Roleplay (человек, средневековый сеттинг Империи).\nВерни только имя, без пояснений, без кавычек, без форматирования, без звездочек."

/-- `generateName`: LLM name generation with markdown cleanup; stores the
cleaned name, leaves the state untouched. -/
def generateName (d : CharacterCreationData) (llm : LLMProviderO) :
    String × Bool × CharacterCreationData × List String :=
  match llm with
  | none => ("Извини, LLM сейчас недоступен. Напиши имя персонажа вручную.", false, d, [])
  | some f =>
    match f nameGenPrompt with
    | .error _ =>
      ("Извини, не получилось сгенерировать имя. API LLM недоступен. Напиши имя вручную.", false, d, [nameGenPrompt])
    | .ok raw =>
      let name := goTrim
        (goReplaceAll (goReplaceAll (goReplaceAll (goTrimSpace raw) "**" "") "*" "") "_" "")
        ['"', '«', '»', '-', '_']
      ("Сгенерировано имя: " ++ name ++ "\n\nЭто имя подходит? Напиши \x27да\x27 чтобы принять или другое имя.",
        true, { d with Name := name }, [nameGenPrompt])

/-- `processName`: the Name-state handler. -/
def processName (d : CharacterCreationData) (input : String)
    (llm : LLMProviderO) : StepResult :=
  let inputLower := goLower (goTrimSpace input)
  if inputLower == "да" || inputLower == "yes" || inputLower == "y" then
    if d.Name != "" then
      ⟨GetPrompt ⟨CC_Race, d⟩, true, ⟨CC_Race, d⟩, []⟩
    else ⟨"Имя не задано. Напиши имя персонажа.", false, ⟨CC_Name, d⟩, []⟩
  else if inputLower == "давай другое" || inputLower == "другое" ||
      inputLower == "ещё" || inputLower == "еще" || containsS inputLower "друг" then
    if llm.isSome then
      let (msg, ok, d2, calls) := generateName d llm
      ⟨msg, ok, ⟨CC_Name, d2⟩, calls⟩
    else ⟨"LLM недоступен. Напиши имя вручную.", false, ⟨CC_Name, d⟩, []⟩
  else if containsS inputLower "сгенери" || inputLower == "generate" then
    if llm.isSome then
      let (msg, ok, d2, calls) := generateName d llm
      ⟨msg, ok, ⟨CC_Name, d2⟩, calls⟩
    else ⟨"LLM недоступен. Напиши имя вручную.", false, ⟨CC_Name, d⟩, []⟩
  else if goLen input < 2 then
    ⟨"Имя слишком короткое. Напиши имя персонажа (минимум 2 буквы).", false, ⟨CC_Name, d⟩, []⟩
  else
    let d2 := { d with Name := input }
    ⟨GetPrompt ⟨CC_Race, d2⟩, true, ⟨CC_Race, d2⟩, []⟩

/-- Per-race base characteristic values of `applyRaceBonuses`. -/
structure RaceChars where
  ws : Int
  bs : Int
  s : Int
  t : Int
  i : Int
  ag : Int
  dex : Int
  intl : Int
  wp : Int
  fel : Int

/-- The `bonuses` table of `applyRaceBonuses`. -/
def raceCharTable : List (String × RaceChars) :=
  [("Человек", ⟨30, 30, 20, 20, 30, 30, 30, 30, 30, 30⟩),
   ("Полурослик", ⟨20, 30, 10, 20, 30, 40, 30, 30, 30, 40⟩),
   ("Гном", ⟨40, 30, 30, 40, 20, 20, 30, 20, 40, 20⟩),
   ("Высший эльф", ⟨40, 40, 20, 20, 40, 40, 40, 40, 30, 30⟩),
   ("Лесной эльф", ⟨30, 30, 20, 20, 40, 40, 30, 30, 30, 30⟩)]

/-- `applyRaceBonuses`: installs the per-race base characteristics; a race
missing from the table leaves the data unchanged. -/
def applyRaceBonuses (d : CharacterCreationData) : CharacterCreationData :=
  match raceCharTable.find? (fun pr => pr.1 == d.Race) with
  | some (_, b) =>
    { d with WS := b.ws, BS := b.bs, S := b.s, T := b.t, I := b.i, Ag := b.ag,
             Dex := b.dex, Intl := b.intl, WP := b.wp, Fel := b.fel }
  | none => d

/-- The race-name lookup map of `processRace`. -/
def raceNameMap : List (String × String) :=
  [("человек", "Человек"), ("1", "Человек"),
   ("полурослик", "Полурослик"), ("2", "Полурослик"),
   ("гном", "Гном"), ("3", "Гном"),
   ("высший эльф", "Высший эльф"), ("4", "Высший эльф"),
   ("эльф", "Высший эльф"),
   ("лесной эльф", "Лесной эльф"), ("5", "Лесной эльф")]

/-- Shared tail of the manual-selection branches of `processRace`. -/
def raceManualResult (d : CharacterCreationData) (race : String) : StepResult :=
  let d := { d with Race := race, RaceMethod := "manual" }
  let d := applyRaceBonuses d
  ⟨"Выбрал: " ++ d.Race ++ "\n\n" ++ GetPrompt ⟨CC_Career, d⟩, true, ⟨CC_Career, d⟩, []⟩

/-- `processRace`: the Race-state handler; `race100` is the `rand.Intn 100`
oracle of the random-roll branch (the d100 roll is `race100 + 1`). -/
def processRace (d : CharacterCreationData) (input : String)
    (race100 : Fin 100) : StepResult :=
  let input := goTrimSpace (goLower input)
  if input == "бросить" || input == "roll" || input == "random" then
    let roll : Int := race100.val + 1
    let race :=
      if roll ≤ 90 then "Человек"
      else if roll ≤ 94 then "Полурослик"
      else if roll ≤ 98 then "Гном"
      else if roll == 99 then "Высший эльф"
      else "Лесной эльф"
    let d := { d with RaceBonusXP := 20, Race := race, RaceMethod := "random" }
    let d := { d with TotalXP := d.TotalXP + d.RaceBonusXP }
    let d := applyRaceBonuses d
    ⟨"(d100 = " ++ intStr roll ++ ") → " ++ race ++ "!\n+20 XP (всего: " ++
       intStr d.TotalXP ++ ")\n\n" ++ GetPrompt ⟨CC_Career, d⟩, true, ⟨CC_Career, d⟩, []⟩
  else
    let byNumber : Option StepResult :=
      match goAtoi input with
      | some choice =>
        if 1 ≤ choice ∧ choice ≤ 5 then
          let races := ["Человек", "Полурослик", "Гном", "Высший эльф", "Лесной эльф"]
          some (raceManualResult d (races.getD (choice - 1).toNat ""))
        else none
      | none => none
    match byNumber with
    | some r => r
    | none =>
      match raceNameMap.find? (fun pr => pr.1 == input) with
      | some (_, race) => raceManualResult d race
      | none =>
        ⟨"Не понял выбор. Напиши номер (1-5), расу или \x27бросить\x27 для случайного выбора.", false, ⟨CC_Race, d⟩, []⟩

/-- The `careers` table of `getRandomCareer`. -/
def careersMap : List (String × List String) :=
  [("Академик", ["Ученик", "Писарь", "Алхимик"]),
   ("Буржуа", ["Торговец", "Ремесленник", "Подмастерье"]),
   ("Придворный", ["Слуга", "Оруженосец", "Менестрель"]),
   ("Крестьянин", ["Поденщик", "Крепостной", "Пастух"]),
   ("Рейнджер", ["Охотник", "Следопыт", "Разведчик"]),
   ("Ремесленник", ["Кузнец", "Плотник", "Ткач"]),
   ("Учёный", ["Астролог", "Целитель", "Пилот"]),
   ("Воин", ["Стражник", "Наёмник", "Охранник"])]

/-- Go integer division truncates toward zero; `Int.div` is the same
operation. -/
def goDiv (a b : Int) : Int := Int.tdiv a b

/-- `getRandomCareer`: buckets a d100 roll into 8 classes of 12 values
(clamping the index), picks the sub-career with the `rand.Intn 3` oracle,
installs class/career/rank/status, and returns the display string. -/
def getRandomCareer (d : CharacterCreationData) (roll : Int) (sub : Fin 3) :
    String × CharacterCreationData :=
  let classes := ["Академик", "Буржуа", "Придворный", "Крестьянин", "Рейнджер",
                  "Ремесленник", "Учёный", "Воин"]
  let classIdx := goDiv (roll - 1) 12
  let classIdx := if classIdx ≥ 8 then 7 else classIdx
  let cls := classes.getD classIdx.toNat ""
  let careerList := lookupD careersMap cls []
  let career := careerList.getD sub.val ""
  let d := { d with Class := cls, Career := career, CareerRank := "Ранг 1",
                    Status := "Медный", StatusLevel := 1 }
  (cls ++ " → " ++ career, d)

/-- `getCareerList`: the fixed manual career list. -/
def getCareerList : String :=
  "\nАкадемики: Ученик, Писарь, Алхимик\nБуржуа: Торговец, Ремесленник, Подмастерье\nПридворные: Слуга, Оруженосец, Менестрель\nКрестьяне: Поденщик, Крепостной, Пастух\nРейнджеры: Охотник, Следопыт, Разведчик\nРемесленники: Кузнец, Плотник, Ткач\nУчёные: Астролог, Целитель, Пилот\nВоины: Стражник, Наёмник, Охранник\n"

/-- `processCareer`: the Career-state handler.  Oracles: `career100`/`careerSub`
drive option 1, the `c2` values drive the three rolls of option 2.  Note the
source's control flow: option 1 adds `CareerXP` inside its `case` and then
falls past the `switch` to the shared `TotalXP += CareerXP` line, so the
bonus is added twice; options 2 and 3 return before the shared line. -/
def processCareer (d : CharacterCreationData) (input : String)
    (career100 : Fin 100) (careerSub : Fin 3)
    (c2roll1 c2roll2 c2roll3 : Fin 100) (c2sub1 c2sub2 c2sub3 : Fin 3) : StepResult :=
  let input := goTrimSpace input
  match goAtoi input with
  | none => ⟨"Напиши номер варианта (1-3).", false, ⟨CC_Career, d⟩, []⟩
  | some choice =>
    if choice == 1 then
      let d := { d with CareerMethod := "first_roll", CareerXP := 50 }
      let roll : Int := career100.val + 1
      let (career, d) := getRandomCareer d roll careerSub
      let d := { d with Career := career }
      let d := { d with TotalXP := d.TotalXP + d.CareerXP }
      let d := { d with TotalXP := d.TotalXP + d.CareerXP }
      ⟨"Карьера: " ++ d.Career ++ "\n+ " ++ intStr d.CareerXP ++ " XP (всего: " ++
         intStr d.TotalXP ++ ")\n\n" ++ GetPrompt ⟨CC_Stats, d⟩, true, ⟨CC_Stats, d⟩, []⟩
    else if choice == 2 then
      let d := { d with CareerMethod := "three_rolls", CareerXP := 25 }
      let r1 : Int := c2roll1.val + 1
      let r2 : Int := c2roll2.val + 1
      let r3 : Int := c2roll3.val + 1
      let (c1, d) := getRandomCareer d r1 c2sub1
      let (c2, d) := getRandomCareer d r2 c2sub2
      let (c3, d) := getRandomCareer d r3 c2sub3
      let msg := "Бросили три раза:\n" ++
        "1. " ++ c1 ++ " (d100=" ++ intStr r1 ++ ")\n" ++
        "2. " ++ c2 ++ " (d100=" ++ intStr r2 ++ ")\n" ++
        "3. " ++ c3 ++ " (d100=" ++ intStr r3 ++ ")\n" ++
        "\nКакую выбираешь? Напиши номер (1-3)."
      let d := { d with Career := c1 }
      ⟨msg, true, ⟨CC_Career, d⟩, []⟩
    else if choice == 3 then
      let d := { d with CareerMethod := "manual", CareerXP := 0 }
      ⟨"Выбери карьеру из списка (напиши название):\n" ++ getCareerList ++ "\n\n" ++
         GetPrompt ⟨CC_Stats, d⟩, true, ⟨CC_Stats, d⟩, []⟩
    else ⟨"Напиши номер варианта (1-3).", false, ⟨CC_Career, d⟩, []⟩

/-- The race-bonus table of `rollStats` (flat bonus added to each rolled
characteristic; a missing race falls back to 30). -/
def rollStatsBonusTable : List (String × Int) :=
  [("Человек", 30), ("Полурослик", 20), ("Гном", 30),
   ("Высший эльф", 40), ("Лесной эльф", 30)]

/-- `rollStats`: ten characteristics, each `rand.Intn 10 + rand.Intn 10 + 2`
plus the race bonus.  The twenty `Intn 10` draws are `g 0 .. g 19` in call
order.  `allowSwap` is accepted and ignored exactly as in the source, whose
swap branch is an empty placeholder. -/
def rollStats (d : CharacterCreationData) (allowSwap : Bool)
    (g : Fin 20 → Fin 10) : CharacterCreationData :=
  let base (j k : Fin 20) : Int := (g j).val + (g k).val + 2
  let raceBonus := lookupD rollStatsBonusTable d.Race 0
  let bonus := if raceBonus == 0 then 30 else raceBonus
  let _ := allowSwap
  { d with
    WS := base 0 1 + bonus, BS := base 2 3 + bonus, S := base 4 5 + bonus,
    T := base 6 7 + bonus, I := base 8 9 + bonus, Ag := base 10 11 + bonus,
    Dex := base 12 13 + bonus, Intl := base 14 15 + bonus,
    WP := base 16 17 + bonus, Fel := base 18 19 + bonus }

/-- `calculateSecondaryStats`: HP from S/T/WP bonuses (Go integer division),
Fate/Resilience/Fortune/Resolve and Movement from per-race tables, Money
from `rand.Intn 10 * 2 + StatusLevel * 2` (the `money10` oracle). -/
def calculateSecondaryStats (d : CharacterCreationData) (money10 : Fin 10) :
    CharacterCreationData :=
  let rs := goDiv d.S 10
  let rv := goDiv d.T 10
  let rsv := goDiv d.WP 10
  let d := { d with HP := rs + 2 * rv + rsv }
  let fr := lookupD
    [("Человек", ((2 : Int), (1 : Int))), ("Полурослик", (0, 2)), ("Гном", (0, 2)),
     ("Высший эльф", (0, 0)), ("Лесной эльф", (0, 0))] d.Race (0, 0)
  let d := { d with Fate := fr.1, Resilience := fr.2, Fortune := fr.1, Resolve := fr.2 }
  let mv := lookupD
    [("Человек", (4 : Int)), ("Полурослик", 3), ("Гном", 3),
     ("Высший эльф", 5), ("Лесной эльф", 5)] d.Race 0
  let d := { d with Movement := if mv == 0 then 4 else mv }
  { d with Money := (money10.val : Int) * 2 + d.StatusLevel * 2 }

/-- `getStatsSummary`: formatted characteristic block. -/
def getStatsSummary (d : CharacterCreationData) : String :=
  "ББ: " ++ intStr d.WS ++ ", ДБ: " ++ intStr d.BS ++ ", СС: " ++ intStr d.S ++
  ", К: " ++ intStr d.T ++ "\nИ: " ++ intStr d.I ++ ", Л: " ++ intStr d.Ag ++
  ", О: " ++ intStr d.WP ++ ", СТ: " ++ intStr d.Fel ++ "\n\nHP: " ++
  intStr d.HP ++ " | Судьба: " ++ intStr d.Fate ++ " | Упорство: " ++
  intStr d.Resilience ++ " | Движение: " ++ intStr d.Movement

/-- Shared tail of the rolled branches of `processStats` (the code after the
`switch`): add the stats XP, derive secondary stats, advance to Skills. -/
def processStatsTail (d : CharacterCreationData) (money10 : Fin 10) : StepResult :=
  let d := { d with TotalXP := d.TotalXP + d.XPFromStats }
  let d := calculateSecondaryStats d money10
  ⟨"Характеристики (бросок 2d10 + бонус расы):\n" ++ getStatsSummary d ++
     "\n\n+ " ++ intStr d.XPFromStats ++ " XP (всего: " ++ intStr d.TotalXP ++
     ")\n\n" ++ GetPrompt ⟨CC_Skills, d⟩, true, ⟨CC_Skills, d⟩, []⟩

/-- `processStats`: the Stats-state handler. -/
def processStats (d : CharacterCreationData) (input : String)
    (g : Fin 20 → Fin 10) (money10 : Fin 10) : StepResult :=
  let input := goTrimSpace input
  match goAtoi input with
  | none => ⟨"Напиши номер варианта (1-3).", false, ⟨CC_Stats, d⟩, []⟩
  | some choice =>
    let d := { d with StatsMethod := "" }
    if choice == 1 then
      let d := { d with StatsMethod := "random_no_swap", XPFromStats := 50 }
      processStatsTail (rollStats d false g) money10
    else if choice == 2 then
      let d := { d with StatsMethod := "random_swap", XPFromStats := 25 }
      processStatsTail (rollStats d true g) money10
    else if choice == 3 then
      let d := { d with StatsMethod := "manual", XPFromStats := 0 }
      ⟨"Распредели 100 пунктов между 10 характеристиками (минимум 4, максимум 18 на каждую).\n\nФормат: WS=XX BS=XX S=XX T=XX I=XX Ag=XX Dex=XX Int=XX WP=XX Fel=XX", true, ⟨CC_Skills, d⟩, []⟩
    else ⟨"Напиши номер варианта (1-3).", false, ⟨CC_Stats, d⟩, []⟩

/-- `getTalentsList`. -/
def getTalentsList : String :=
  "Таланты от расы и карьеры:\n(будут добавлены автоматически из правил)"

/-- `getGearInfo`. -/
def getGearInfo (d : CharacterCreationData) : String :=
  "Деньги: " ++ intStr d.Money ++ " (по статусу " ++ d.Status ++ " " ++
  intStr d.StatusLevel ++ ")\n\nСнаряжение будет добавлено из правил карьеры."

/-- `processAppearance`: rolls hair (d20 clamped to the 6-entry table), eyes
(d20 clamped to the 5-entry table), age (race base + `Intn 20` + 2) and
height (150 + `Intn 40`), then moves to Personality.  Its `input` argument
is unused in the source (the only call passes ""). -/
def processAppearance (d : CharacterCreationData)
    (hair20 eye20 age20 : Fin 20) (height40 : Fin 40) : StepResult :=
  let hairRoll : Int := hair20.val + 1
  let eyeRoll : Int := eye20.val + 1
  let hairColors := ["чёрные", "каштановые", "русые", "рыжие", "седые", "белые"]
  let eyeColors := ["карие", "голубые", "зелёные", "серые", "чёрные"]
  let hairRoll := if hairRoll > 6 then 6 else hairRoll
  let eyeRoll := if eyeRoll > 5 then 5 else eyeRoll
  let d := { d with HairColor := hairColors.getD (hairRoll - 1).toNat "",
                    EyeColor := eyeColors.getD (eyeRoll - 1).toNat "" }
  let base := lookupD
    [("Человек", (18 : Int)), ("Полурослик", 30), ("Гном", 40),
     ("Высший эльф", 100), ("Лесной эльф", 50)] d.Race 0
  let base := if base == 0 then 18 else base
  let d := { d with Age := base + (age20.val : Int) + 2 }
  let d := { d with Height := intStr (150 + (height40.val : Int)) ++ " см" }
  ⟨"Внешность:\n- Волосы: " ++ d.HairColor ++ "\n- Глаза: " ++ d.EyeColor ++
     "\n- Рост: " ++ d.Height ++ "\n- Возраст: " ++ intStr d.Age ++ "\n\n" ++
     GetPrompt ⟨CC_Personality, d⟩, true, ⟨CC_Personality, d⟩, []⟩

/-- `processPersonality`: splits the input into strengths / weaknesses /
background lines and sets the fixed motivation. -/
def processPersonality (d : CharacterCreationData) (input : String) :
    CharacterCreationData :=
  let lines := goSplit input '\n'
  let d := { d with Strengths := (goSplit (lines.getD 0 "") ',').map goTrimSpace }
  let d := if lines.length ≥ 2 then
      { d with Weaknesses := (goSplit (lines.getD 1 "") ',').map goTrimSpace }
    else d
  let d := if lines.length ≥ 3 then { d with Background := lines.getD 2 "" } else d
  { d with Motivation := "Стать искателем приключений" }

/-- The generate-name command test of `ProcessInput` (applied to the
lower-cased trimmed input; only effective in the Name state). -/
def isGenNameCommand (lowerInput : String) : Bool :=
  lowerInput == "сгенери имя" || lowerInput == "сгенери сам" ||
  lowerInput == "生成 имя" || lowerInput == "generate name" ||
  containsS lowerInput "сгенери"

/-- `CharacterCreator.ProcessInput`: one input step of the creation FSM.
The audit side effect `saveStep` (file write, never read back) is dropped.
Precedence is exactly the source's: generate-name command (Name state only),
then the LLM-question test, then the per-state handler. -/
def CharacterCreator.ProcessInput (cc : CharacterCreator) (input : String)
    (rnd : RandSrc) (llm : LLMProviderO) : StepResult :=
  let lowerInput := goLower (goTrimSpace input)
  if cc.State == CC_Name && isGenNameCommand lowerInput then
    let (msg, ok, d2, calls) := generateName cc.Data llm
    ⟨msg, ok, ⟨cc.State, d2⟩, calls⟩
  else if IsLLMQuestion input then
    let (msg, ok, calls) := processLLMQuestion cc.State input llm
    ⟨msg, ok, cc, calls⟩
  else
    match cc.State with
    | CC_Name => processName cc.Data input llm
    | CC_Race => processRace cc.Data input rnd.race100
    | CC_Career => processCareer cc.Data input rnd.career100 rnd.careerSub
        rnd.c2roll1 rnd.c2roll2 rnd.c2roll3 rnd.c2sub1 rnd.c2sub2 rnd.c2sub3
    | CC_Stats => processStats cc.Data input rnd.stat10 rnd.money10
    | CC_Skills =>
      ⟨"Таланты:\n" ++ getTalentsList ++ "\n\nНапиши \x27далее\x27 для продолжения.",
        true, ⟨CC_Talents, cc.Data⟩, []⟩
    | CC_Talents =>
      ⟨"Снаряжение:\n" ++ getGearInfo cc.Data ++ "\n\nНапиши \x27далее\x27 для продолжения.",
        true, ⟨CC_Gear, cc.Data⟩, []⟩
    | CC_Gear => processAppearance cc.Data rnd.hair20 rnd.eye20 rnd.age20 rnd.height40
    | CC_Appearance =>
      ⟨GetPrompt ⟨CC_Personality, cc.Data⟩, true, ⟨CC_Personality, cc.Data⟩, []⟩
    | CC_Personality =>
      let d2 := processPersonality cc.Data input
      ⟨GetPrompt ⟨CC_Review, d2⟩, true, ⟨CC_Review, d2⟩, []⟩
    | CC_Review =>
      if goLower input == "да" || goLower input == "yes" || input == "1" then
        ⟨"Сохраняю персонажа...", true, ⟨CC_Save, cc.Data⟩, []⟩
      else ⟨"Сохранение отменено. Напиши /newchar для начала заново.", false, cc, []⟩
    | CC_Save => ⟨"Персонаж сохранён! Игра начинается!", false, cc, []⟩
    | _ => ⟨GetPrompt cc, true, cc, []⟩

/-- `IsComplete`. -/
def CharacterCreator.IsComplete (cc : CharacterCreator) : Bool :=
  cc.State == CC_Complete || cc.State == CC_Save

/-! Character sheets, parsed stats and sheet updates (package `game`,
src/unnamed/part_008). -/

/-- Remove a leading pattern if present (`strings.TrimPrefix`). -/
def goTrimLeading (s pat : String) : String :=
  if startsWithS s pat then ⟨s.data.drop pat.data.length⟩ else s

/-- Suffix test (`strings.HasSuffix`). -/
def endsWithS (s pat : String) : Bool := startsWithL s.data.reverse pat.data.reverse

/-- Split at the first occurrence of a character (`strings.SplitN _ _ 2`):
returns the parts before and after it when it occurs. -/
def splitFirstL : List Char → Char → Option (List Char × List Char)
  | [], _ => none
  | c :: rest, sep =>
    if c == sep then some ([], rest)
    else (splitFirstL rest sep).map (fun pr => (c :: pr.1, pr.2))

/-- Go `fmt.Sscanf` with any of the malformed formats used in this package
("*%*HP: %d", "*%*XP: %d", "%*[damage ]*%d", "%*[healed ]*%d",
"%*[xp ]*%d") returns an error on every input: Go's scanning has no `%*` or
`%[` verbs (bad-verb error), and in the first two formats the leading
literal `*` already fails to match the scanned lines.  The scanned variable
is therefore never assigned, which this model captures by never returning a
value. -/
def goSscanfBadVerb (_input : String) : Option Int := none

/-- `extractCharacterName`: first "# Имя" header line, with the source's
double `TrimSpace` (the colon of "# Имя:" survives, as in the source). -/
def extractCharacterName (content : String) : String :=
  match (goSplit content '\n').find?
      (fun line => startsWithS line "# Имя:" || startsWithS line "# Имя ") with
  | some line => goTrimSpace (goTrimSpace (goTrimLeading line "# Имя"))
  | none => "Unknown"

/-- `CharacterStats` (parsed sheet numbers; `Intl` is the Go `Int` field). -/
structure CharacterStats where
  Name : String := ""
  WS : Int := 0
  BS : Int := 0
  S : Int := 0
  Ag : Int := 0
  Intl : Int := 0
  WP : Int := 0
  Fel : Int := 0
  CurrentHP : Int := 0
  MaxHP : Int := 0
  XP : Int := 0
  Experience : List String := []

/-- One line of the `ParseCharacterStats` loop: the "key: value" switch, then
the HP scan, then the XP scan (both scans use malformed formats and never
fire — see `goSscanfBadVerb`). -/
def parseStatsLine (stats : CharacterStats) (line : String) : CharacterStats :=
  let stats :=
    if containsS line ":" then
      match splitFirstL line.data ':' with
      | some (k, v) =>
        let key := goTrimSpace ⟨k⟩
        let value := goTrimSpace ⟨v⟩
        match parseLeadingInt value.data with
        | some intValue =>
          if key == "В" || key == "Weapon Skill" then { stats with WS := intValue }
          else if key == "BS" || key == "Ballistic Skill" then { stats with BS := intValue }
          else if key == "S" || key == "Strength" then { stats with S := intValue }
          else if key == "Ag" || key == "Agility" then { stats with Ag := intValue }
          else if key == "Int" || key == "Intelligence" then { stats with Intl := intValue }
          else if key == "WP" || key == "Will Power" then { stats with WP := intValue }
          else if key == "Fel" || key == "Fellowship" then { stats with Fel := intValue }
          else stats
        | none => stats
      | none => stats
    else stats
  let stats :=
    if containsS line "HP:" || containsS line "Здоровье:" then
      match goSscanfBadVerb line with
      | some v => { stats with MaxHP := v, CurrentHP := v }
      | none => stats
    else stats
  if containsS line "XP:" || containsS line "Опыт:" then
    match goSscanfBadVerb line with
    | some v => { stats with XP := v }
    | none => stats
  else stats

/-- `ParseCharacterStats` (its error result is always nil in the source). -/
def ParseCharacterStats (sheet : String) : CharacterStats :=
  (goSplit sheet '\n').foldl parseStatsLine
    { Name := extractCharacterName sheet, CurrentHP := 0, MaxHP := 0, XP := 0 }

/-- `CharacterUpdate` (the Go `StatsChanges` map is carried as an
association list; its iteration order is unspecified in Go). -/
structure CharacterUpdate where
  HPChange : Int := 0
  MaxHPChange : Int := 0
  XPChange : Int := 0
  StatsChanges : List (String × Int) := []
  SkillsAdded : List String := []
  SkillsRemoved : List String := []
  Conditions : List String := []

/-- `applyHPChange`: clamp the new HP into [0, MaxHP] (upper bound only when
MaxHP > 0) and rewrite the "HP:"/"Здоровье:" value.  The `stats == nil`
guard of the source is dead because `ParseCharacterStats` never fails. -/
def applyHPChange (sheet : String) (change : Int) (stats : CharacterStats) : String :=
  let newCurrentHP := stats.CurrentHP + change
  let newCurrentHP :=
    if newCurrentHP < 0 then 0
    else if stats.MaxHP > 0 ∧ newCurrentHP > stats.MaxHP then stats.MaxHP
    else newCurrentHP
  goReplacer
    [("HP: " ++ intStr stats.CurrentHP, "HP: " ++ intStr newCurrentHP),
     ("Здоровье: " ++ intStr stats.CurrentHP, "Здоровье: " ++ intStr newCurrentHP)]
    sheet

/-- `applyMaxHPChange` is a placeholder returning the sheet unchanged. -/
def applyMaxHPChange (sheet : String) (_change : Int) : String := sheet

/-- `applyXPChange`: find "XP:", scan the current value with format
"XP: %d" (a valid format), rewrite "XP: cur" to "XP: cur+change". -/
def applyXPChange (sheet : String) (change : Int) : String :=
  match indexOfL sheet.data "XP:".data with
  | some idx =>
    match parseLeadingInt (skipScanSpaces ((sheet.data.drop idx).drop 3)) with
    | some currentXP =>
      goReplaceAll sheet ("XP: " ++ intStr currentXP)
        ("XP: " ++ intStr (currentXP + change))
    | none => sheet
  | none => sheet

/-- `applyStatChange`: find "stat:", scan with "stat: %d", clamp the new
value into [0, 100], and rewrite the pattern "stat cur" (the source drops
the colon in the rewritten pattern). -/
def applyStatChange (sheet : String) (stat : String) (change : Int) : String :=
  let statMarker := stat ++ ":"
  match indexOfL sheet.data statMarker.data with
  | some idx =>
    match parseLeadingInt
        (skipScanSpaces ((sheet.data.drop idx).drop statMarker.data.length)) with
    | some currentValue =>
      let newValue := currentValue + change
      let newValue := if newValue > 100 then 100 else newValue
      let newValue := if newValue < 0 then 0 else newValue
      goReplaceAll sheet (stat ++ " " ++ intStr currentValue)
        (stat ++ " " ++ intStr newValue)
    | none => sheet
  | none => sheet

/-- `addSkillToSheet`: insert "\n- skill" right after the "## Навыки" header
(the source's `endIdx` is computed but unused). -/
def addSkillToSheet (sheet : String) (skill : String) : String :=
  let skillsSection := "## Навыки"
  match indexOfL sheet.data skillsSection.data with
  | some idx =>
    ⟨insertAt sheet.data (idx + skillsSection.data.length) ("\n- " ++ skill).data⟩
  | none => sheet

/-- `addConditionToSheet`: insert before the psychological-conditions marker
when present after the header, otherwise create the needed header/marker
block (Go's absent-substring index -1 lands in the same else branch). -/
def addConditionToSheet (sheet : String) (condition : String) : String :=
  let conditionsHeader := "## Состояния"
  let conditionsMarker := "### Психологические состояния"
  match indexOfL sheet.data conditionsHeader.data with
  | some idx =>
    let markerCase :=
      match indexOfL sheet.data conditionsMarker.data with
      | some markerIdx => if markerIdx > idx then some markerIdx else none
      | none => none
    match markerCase with
    | some markerIdx => ⟨insertAt sheet.data markerIdx ("\n- " ++ condition).data⟩
    | none =>
      ⟨insertAt sheet.data (idx + conditionsHeader.data.length)
        ("\n\n" ++ conditionsMarker ++ "\n- " ++ condition).data⟩
  | none =>
    ⟨insertAt sheet.data sheet.data.length
      ("\n\n" ++ conditionsHeader ++ "\n\n" ++ conditionsMarker ++ "\n- " ++ condition).data⟩

/-- `ApplyCharacterUpdate`: parse the sheet's stats, apply HP / max-HP / XP /
stat / skill / condition edits in the source's order collecting warnings,
then unconditionally append the "*(Обновлено: HH:MM:SS)*" footer.  `now` is
the formatted `time.Now()` clock value. -/
def ApplyCharacterUpdate (sheet : String) (update : CharacterUpdate)
    (now : String) : String × List String :=
  let stats := ParseCharacterStats sheet
  let st0 : String × List String :=
    if update.HPChange ≠ 0 then
      (applyHPChange sheet update.HPChange stats,
       [if update.HPChange < 0 then
          "Character took " ++ intStr (-update.HPChange) ++ " damage"
        else "Character healed " ++ intStr update.HPChange ++ " HP"])
    else (sheet, [])
  let st1 : String × List String :=
    if update.MaxHPChange ≠ 0 then (applyMaxHPChange st0.1 update.MaxHPChange, st0.2)
    else st0
  let st2 : String × List String :=
    if update.XPChange ≠ 0 then
      (applyXPChange st1.1 update.XPChange,
       st1.2 ++ ["Character gained " ++ intStr update.XPChange ++ " XP"])
    else st1
  let st3 := update.StatsChanges.foldl
    (fun pr sc => (applyStatChange pr.1 sc.1 sc.2,
                   pr.2 ++ [sc.1 ++ " changed by " ++ intStr sc.2])) st2
  let st4 := update.SkillsAdded.foldl
    (fun pr sk => (addSkillToSheet pr.1 sk, pr.2 ++ ["Added skill: " ++ sk])) st3
  let st5 := update.Conditions.foldl
    (fun pr c => (addConditionToSheet pr.1 c, pr.2 ++ ["Condition added: " ++ c])) st4
  (st5.1 ++ "\n\n*(Обновлено: " ++ now ++ ")*", st5.2)

/-- `extractSkillFromLine`: first whitespace-separated word that does not end
in ':' or '-' and is longer than two bytes. -/
def extractSkillFromLine (line : String) : String :=
  match (goFields line).find?
      (fun part => !(endsWithS part ":" || endsWithS part "-") && goLen part > 2) with
  | some part => goTrimSpace part
  | none => ""

/-- One line of `ParseCharacterUpdateFromResponse`.  All three numeric scans
use malformed formats (see `goSscanfBadVerb`), so damage/heal/XP keywords
never change the numbers; only skills and conditions accumulate. -/
def parseUpdateLine (u : CharacterUpdate) (line : String) : CharacterUpdate :=
  let lower := goLower (goTrimSpace line)
  let u :=
    if containsS lower "получил" || containsS lower "took damage" then
      match goSscanfBadVerb line with
      | some damage => { u with HPChange := u.HPChange - damage }
      | none => u
    else u
  let u :=
    if containsS lower "вылечен" || containsS lower "healed" then
      match goSscanfBadVerb line with
      | some healing => { u with HPChange := u.HPChange + healing }
      | none => u
    else u
  let u :=
    if containsS lower "получил опыт" || containsS lower "gained xp" then
      match goSscanfBadVerb line with
      | some xp => { u with XPChange := u.XPChange + xp }
      | none => u
    else u
  let u :=
    if containsS lower "навык" || containsS lower "skill" then
      let skillName := extractSkillFromLine line
      if skillName != "" then { u with SkillsAdded := u.SkillsAdded ++ [skillName] }
      else u
    else u
  let u :=
    if containsS lower "ранение" || containsS lower "wound" then
      { u with Conditions := u.Conditions ++ ["Wounded"] }
    else u
  let u :=
    if containsS lower "кровотечение" || containsS lower "bleeding" then
      { u with Conditions := u.Conditions ++ ["Bleeding"] }
    else u
  if containsS lower "крит" || containsS lower "critical" then
    { u with Conditions := u.Conditions ++ ["Critical Wound"] }
  else u

/-- `ParseCharacterUpdateFromResponse` (its error and player-id results are
constants in the source: "" and nil error). -/
def ParseCharacterUpdateFromResponse (response : String) : CharacterUpdate :=
  (goSplit response '\n').foldl parseUpdateLine {}

/-- `ValidateUpdate`: the WFRP validity rules for an update (this function
is defined in the source but never called by `ApplyCharacterUpdate` or the
session turn). -/
def ValidateUpdate (update : CharacterUpdate) (currentStats : Option CharacterStats) :
    List String :=
  let errs : List String :=
    match currentStats with
    | some stats =>
      let newHP := stats.CurrentHP + update.HPChange
      (if newHP < 0 then ["HP cannot be negative"] else []) ++
      (if newHP > stats.MaxHP ∧ update.MaxHPChange = 0 then
        ["HP cannot exceed Max HP without healing"] else [])
    | none => []
  let errs := errs ++ (if update.XPChange < 0 then ["Cannot lose XP"] else [])
  errs ++ update.StatsChanges.foldl
    (fun acc sc =>
      acc ++ (if sc.2 < 0 then ["Cannot lose " ++ sc.1 ++ " stat"] else []) ++
      (if sc.2 > 100 then [sc.1 ++ " change exceeds WFRP limits"] else [])) []

/-! Game sessions and the session manager (package `game`,
src/unnamed/part_007 and part_008). -/

/-- `SessionState`. -/
inductive SessionState where
  | StateIdle | StateActive | StateProcessing | StatePaused
deriving DecidableEq, Repr

open SessionState

/-- `Character`: a player's character card. -/
structure Character where
  ID : String := ""
  Name : String := ""
  CardPath : String := ""
  Sheet : String := ""
  LastUpdate : Int := 0

/-- `InputData` (metadata map carried as an association list of the string
values that occur here). -/
structure InputData where
  Source : String := ""
  Content : String := ""
  Timestamp : Int := 0
  Metadata : List (String × String) := []

/-- `GameOutput`. -/
structure GameOutput where
  Source : String
  Content : String
  IsAction : Bool
  Timestamp : Int

/-- `PromptBuilder`. -/
structure PromptBuilder where
  campaign : String := ""
  scenario : String := ""
  rules : List String := []

/-- `Session`: per-conversation controller.  The cancellable lifetime
context is modelled by the `ctxCancelled` flag (`cancel()` sets it); the
LLM capability is a per-call oracle; the mutex is erased. -/
structure Session where
  ID : String := ""
  GroupID : Int := 0
  Campaign : String := ""
  Characters : List (String × Character) := []
  State : SessionState := StateIdle
  StartTime : Int := 0
  LastActivity : Int := 0
  promptBuilder : PromptBuilder := {}
  ctxCancelled : Bool := false

/-- `NewSession` (`now` models the two `time.Now()` reads). -/
def NewSession (now : Int) (groupID : Int) (campaign : String) : Session :=
  { ID := campaign ++ "_" ++ intStr groupID, GroupID := groupID,
    Campaign := campaign, Characters := [], State := StateIdle,
    StartTime := now, LastActivity := now,
    promptBuilder := { campaign := campaign }, ctxCancelled := false }

/-- `Session.Start` (the watchdog goroutine spawn is modelled by invoking
`checkInputsTick` per ticker step, see below). -/
def Session.Start (s : Session) (now : Int) : Session :=
  { s with State := StateActive, LastActivity := now }

/-- `Session.Stop`: cancel the lifetime context, transition to Idle. -/
def Session.Stop (s : Session) : Session :=
  { s with ctxCancelled := true, State := StateIdle }

/-- `Session.UpdateActivity`. -/
def Session.UpdateActivity (s : Session) (now : Int) : Session :=
  { s with LastActivity := now }

/-- `Session.GetAllCharacterSheets`. -/
def Session.GetAllCharacterSheets (s : Session) : List String :=
  s.Characters.map (fun pr => pr.2.Sheet)

/-- `Session.IsActive`. -/
def Session.IsActive (s : Session) : Bool := s.State == StateActive

/-- `BuildGamePrompt`: pure composition of the full LLM prompt. -/
def BuildGamePrompt (pb : PromptBuilder) (input : InputData)
    (characterSheets : List String) : String :=
  let p := "--- СИСТЕМА: WARHAMMER FANTASY ROLEPLAY 4E ---\n\n" ++
    "Ты - Game Master (Гейм Мастер) для игры в WFRP 4e. " ++
    "Твоя задача - вести интересную и атмосферную игру, " ++
    "строго соблюдая правила WFRP 4th Edition.\n\n"
  let p := if pb.campaign != "" then
      p ++ "--- КАМПАНИЯ: " ++ pb.campaign ++ " ---\n\n" else p
  let p := if pb.scenario != "" then
      p ++ "СЦЕНАРИЙ:\n" ++ pb.scenario ++ "\n\n" else p
  let p := if characterSheets.length > 0 then
      p ++ "--- АКТИВНЫЕ ПЕРСОНАЖИ ИГРОКОВ ---\n\n" ++
        String.intercalate "\n---\n\n" characterSheets ++
        "\n--- КОНЕЦ ПЕРСОНАЖЕЙ ---\n\n"
    else p
  let p := if pb.rules.length > 0 then
      p ++ "--- ПРАВИЛА ---\n" ++ "Важно строго следовать правилам WFRP 4e. " ++
        "Для проверки механик используй:\n" ++
        String.join (pb.rules.map (fun r => "  • " ++ r ++ "\n")) ++
        "--- КОНЕЦ ПРАВИЛ ---\n\n"
    else p
  let p := p ++ "--- ВВОД ИГРОКА ---\n" ++ "Источник: " ++ input.Source ++ "\n" ++
    "Содержание: " ++ input.Content ++ "\n" ++
    "Время: " ++ formatClock input.Timestamp ++ "\n"
  let p := if input.Metadata.length > 0 then
      p ++ "Метаданные:\n" ++
        String.join (input.Metadata.map (fun kv => "  • " ++ kv.1 ++ ": " ++ kv.2 ++ "\n"))
    else p
  p ++ "--- КОНЕЦ ВВОДА ---\n\n" ++ "--- ИНСТРУКЦИЯ ---\n" ++
    "Отвечай как Game Master. Веди игру атмосферно и интересно. " ++
    "При описании действий требуй проверок по правилам WFRP 4e. " ++
    "Если игрок пытается выполнить действие, требуй соответствующей проверки (Бой, Навык, Характеристика). " ++
    "Соблюдай все правила WFRP 4e, включая модификаторы, сложность и последствия провала/успеха.\n" ++
    "--- КОНЕЦ ИНСТРУКЦИИ ---\n\n" ++ "GM RESPONSE:"

/-- `Session.ProcessInput` (src/unnamed/part_008, lines 404-450): update
activity, mark Processing, build the prompt, call the LLM synchronously,
restore Active, parse the response for character deltas, apply them to
every character of the session, and return the GM output.  There is no
check of the session state anywhere in the function.  Result: the Go
`(output, error)` pair, the mutated session, and the prompts sent to the
LLM. -/
def Session.ProcessInput (s : Session) (now : Int)
    (llm : String → Except String String) (input : InputData) :
    Except String GameOutput × Session × List String :=
  let s := s.UpdateActivity now
  let s := { s with State := StateProcessing }
  let prompt := BuildGamePrompt s.promptBuilder input s.GetAllCharacterSheets
  match llm prompt with
  | .error err =>
    (.error ("failed to generate response: " ++ err),
     { s with State := StateActive }, [prompt])
  | .ok response =>
    let s := { s with State := StateActive }
    let charUpdate := ParseCharacterUpdateFromResponse response
    let s := { s with Characters := s.Characters.map (fun pr =>
        (pr.1, { pr.2 with
          Sheet := (ApplyCharacterUpdate pr.2.Sheet charUpdate (formatClock now)).1,
          LastUpdate := now })) }
    (.ok { Source := "gm", Content := response, IsAction := false, Timestamp := now },
     s, [prompt])

/-- `Session.CheckInputs`: the placeholder implementation always reports
no new input and no error. -/
def Session.CheckInputs (_s : Session) : Bool × Option String := (false, none)

/-- Thirty minutes in nanoseconds (`30 * time.Minute`). -/
def sessionTimeoutNs : Int := 30 * 60 * 1000000000

/-- `Session.checkTimeout`: stop the session when the inactivity span
exceeds thirty minutes. -/
def Session.checkTimeout (s : Session) (now : Int) : Session :=
  let inactivity := now - s.LastActivity
  if inactivity > sessionTimeoutNs then s.Stop else s

/-- One ticker iteration of `checkInputsLoop` (fires every second,
independently of the input path): `CheckInputs` is the placeholder
returning no input, so the iteration reduces to the timeout check; no
external (LLM) call occurs anywhere in it. -/
def Session.checkInputsTick (s : Session) (now : Int) : Session :=
  let (hasInput, _err) := s.CheckInputs
  let s := if hasInput then s.UpdateActivity now else s
  s.checkTimeout now

/-- `SessionManager.GetSession` over the registry association list. -/
def SessionManager.GetSession (sessions : List (Int × Session)) (chatID : Int) :
    Option Session :=
  match sessions.find? (fun pr => pr.1 == chatID) with
  | some pr => some pr.2
  | none => none

/-- `SessionManager.ProcessPlayerMessage` (src/unnamed/part_007): look the
session up, reject a missing session and a non-Active session with typed
errors before anything else happens, otherwise build the player `InputData`
(its timestamp is the session's `LastActivity`, as in the source) and run
`Session.ProcessInput`.  Returns the Go result, the updated registry, and
the prompts sent to the LLM. -/
def SessionManager.ProcessPlayerMessage (sessions : List (Int × Session))
    (chatID : Int) (playerID text : String) (now : Int)
    (llm : String → Except String String) :
    Except String GameOutput × List (Int × Session) × List String :=
  match SessionManager.GetSession sessions chatID with
  | none => (.error ("no active session for chat " ++ intStr chatID), sessions, [])
  | some session =>
    if !session.IsActive then
      (.error ("session " ++ session.ID ++ " is not active"), sessions, [])
    else
      let input : InputData :=
        { Source := "player", Content := text, Timestamp := session.LastActivity,
          Metadata := [("player_id", playerID)] }
      let (out, s2, calls) := session.ProcessInput now llm input
      (out, sessions.map (fun pr => if pr.1 == chatID then (pr.1, s2) else pr), calls)

/-! Shared fixtures and measures used by the claim theorems. -/

/-- A fresh, all-zero creation data record (what `NewCharacterCreator`
allocates). -/
def freshData : CharacterCreationData := {}

/-- Oracle with every random draw at its minimum. -/
def rndZero : RandSrc := {}

/-- Constructor-level view of a Go `(value, error)` pair. -/
def exceptIsOk {ε α : Type} : Except ε α → Bool
  | .ok _ => true
  | .error _ => false

/-- The all-zero `CharacterUpdate` (no delta field set). -/
def emptyUpdate : CharacterUpdate := {}

/-- Scenario: name step of a fresh creator. -/
def c1Step1 : StepResult := (NewCharacterCreator "").ProcessInput "Иван" rndZero none

/-- Scenario: then the Race step on "бросить" with d100 roll 50
(`Intn 100 = 49`). -/
def c1Step2 : StepResult :=
  c1Step1.cc.ProcessInput "бросить" { race100 := ⟨49, by decide⟩ } none

/-- A registered but paused session. -/
def pausedSession : Session := { ID := "demo_42", State := StatePaused, LastActivity := 0 }

/-- An LLM stub that answers every prompt successfully. -/
def llmOkStub : String → Except String String := fun _ => .ok "Вы входите в таверну."

/-- Fixture: manual race choice 1 ("Человек"). -/
def c6AfterRace : StepResult := processRace freshData "1" ⟨0, by decide⟩

/-- Fixture: then career option 1 (sets status level 1). -/
def c6AfterCareer : StepResult :=
  processCareer c6AfterRace.cc.Data "1" ⟨0, by decide⟩ ⟨0, by decide⟩ ⟨0, by decide⟩
    ⟨0, by decide⟩ ⟨0, by decide⟩ ⟨0, by decide⟩ ⟨0, by decide⟩ ⟨0, by decide⟩

/-- Fixture: then stats option 1 with every d10 draw and the money draw 0. -/
def c6Res : StepResult :=
  processStats c6AfterCareer.cc.Data "1" (fun _ => ⟨0, by decide⟩) ⟨0, by decide⟩

/-- An LLM stub generating the name "Альдрик". -/
def llmAld : LLMProviderO := some (fun _ => Except.ok "Альдрик")

/-- Occurrences of the Cyrillic capital letter О in a string.  The footer
marker "Обновлено" contributes one; every rewriting step of
`ApplyCharacterUpdate` either preserves this measure (the replacements
change only digit text) or inserts text, so the measure never decreases —
which is what makes the footer-append visible in the final sheet. -/
def countO (s : String) : Nat := s.data.count 'О'

/-! Helper lemmas about the embedded operations. -/

/-- `applyRaceBonuses` does not touch the chosen race. -/
theorem applyRaceBonuses_Race (d : CharacterCreationData) :
    (applyRaceBonuses d).Race = d.Race := by
  unfold applyRaceBonuses; split <;> rfl

/-- `applyRaceBonuses` does not touch the race-bonus XP field. -/
theorem applyRaceBonuses_RaceBonusXP (d : CharacterCreationData) :
    (applyRaceBonuses d).RaceBonusXP = d.RaceBonusXP := by
  unfold applyRaceBonuses; split <;> rfl

/-- `applyRaceBonuses` does not touch the XP total. -/
theorem applyRaceBonuses_TotalXP (d : CharacterCreationData) :
    (applyRaceBonuses d).TotalXP = d.TotalXP := by
  unfold applyRaceBonuses; split <;> rfl

/-- Every entry of the `rollStats` race-bonus table is non-negative, and so
is the zero default of a missing race. -/
theorem rollStatsBonus_nonneg (k : String) : 0 ≤ lookupD rollStatsBonusTable k 0 := by
  unfold lookupD
  cases h : List.find? (fun pr => pr.1 == k) rollStatsBonusTable with
  | none => simp [h]
  | some pr =>
    have hm := List.mem_of_find?_eq_some h
    simp only [h]
    simp only [rollStatsBonusTable, List.mem_cons, List.not_mem_nil, or_false] at hm
    rcases hm with h1 | h1 | h1 | h1 | h1 <;> simp [h1]

/-- A match of `startsWithL` decomposes the text as pattern plus rest. -/
theorem startsWithL_decomp : ∀ (pat s : List Char),
    startsWithL s pat = true → s = pat ++ s.drop pat.length
  | [], s, _ => by simp
  | b :: p, [], h => by simp [startsWithL] at h
  | b :: p, a :: s, h => by
    simp only [startsWithL, Bool.and_eq_true, beq_iff_eq] at h
    obtain ⟨rfl, h2⟩ := h
    simpa using startsWithL_decomp p s h2

/-- The fuelled replacer preserves the count of any character whose count
agrees between each pattern and its replacement. -/
theorem count_goReplacerGo (pairs : List (List Char × List Char)) (c0 : Char)
    (hp : ∀ pr ∈ pairs, pr.1.count c0 = pr.2.count c0) :
    ∀ (fuel : Nat) (s : List Char), s.length ≤ fuel →
      (goReplacerGo pairs fuel s).count c0 = s.count c0 := by
  intro fuel
  induction fuel with
  | zero =>
    intro s hs
    have : s = [] := List.eq_nil_of_length_eq_zero (Nat.le_zero.mp hs)
    subst this
    rfl
  | succ fuel ih =>
    intro s hs
    match s with
    | [] => rfl
    | c :: rest =>
      rw [goReplacerGo]
      cases hfind : findRep pairs (c :: rest) with
      | none => simp [List.count_cons, ih rest (by simpa using Nat.le_of_succ_le_succ hs)]
      | some pr =>
        obtain ⟨pat, rep⟩ := pr
        have hpred := List.find?_some hfind
        simp only [Bool.and_eq_true, Bool.not_eq_true'] at hpred
        have hmem := List.mem_of_find?_eq_some hfind
        have hcnt := hp _ hmem
        dsimp only at hcnt
        have hdec := startsWithL_decomp pat (c :: rest) hpred.2
        match pat, hpred.1 with
        | q :: qt, _ =>
          have hlen : (rest.drop ((q :: qt).length - 1)).length ≤ fuel := by
            simp only [List.length_cons, Nat.add_sub_cancel, List.length_drop]
            have : rest.length ≤ fuel := by simpa using Nat.le_of_succ_le_succ hs
            omega
          have hdrop : (c :: rest).drop (q :: qt).length = rest.drop ((q :: qt).length - 1) := by
            simp
          rw [List.count_append, ih _ hlen]
          conv_rhs => rw [hdec]
          rw [List.count_append, hdrop]
          omega

/-- Count preservation for the replacer at its standard fuel. -/
theorem count_goReplacerL (pairs : List (List Char × List Char)) (c0 : Char)
    (hp : ∀ pr ∈ pairs, pr.1.count c0 = pr.2.count c0) (s : List Char) :
    (goReplacerL pairs s).count c0 = s.count c0 :=
  count_goReplacerGo pairs c0 hp s.length s (le_refl _)

/-- The О-measure adds over string concatenation. -/
theorem countO_append (a b : String) : countO (a ++ b) = countO a + countO b := by
  have h : (a ++ b).data = a.data ++ b.data := rfl
  simp [countO, h]

/-- The О-measure is preserved by a replacer whose pairs agree on it. -/
theorem countO_goReplacer (pairs : List (String × String)) (s : String)
    (hp : ∀ pr ∈ pairs, countO pr.1 = countO pr.2) :
    countO (goReplacer pairs s) = countO s := by
  show (goReplacerL (pairs.map (fun pr => (pr.1.data, pr.2.data))) s.data).count 'О'
      = s.data.count 'О'
  apply count_goReplacerL
  intro pr hpr
  rcases List.mem_map.mp hpr with ⟨q, hq, rfl⟩
  exact hp q hq

/-- Decimal digit characters all come from the fixed digit list. -/
theorem digitChar_mem (m : Nat) :
    digitChar m ∈ ['0', '1', '2', '3', '4', '5', '6', '7', '8', '9'] := by
  unfold digitChar
  by_cases h : m < 10
  · interval_cases m <;> decide
  · rw [List.getD_eq_default]
    · decide
    · simpa using Nat.not_lt.mp h

/-- The letter О is not a decimal digit character. -/
theorem not_mem_natDigitsGo : ∀ (fuel n : Nat), 'О' ∉ natDigitsGo fuel n := by
  intro fuel
  induction fuel with
  | zero =>
    intro n hmem
    rw [natDigitsGo] at hmem
    have := digitChar_mem (n % 10)
    simp at hmem
    rw [← hmem] at this
    revert this
    decide
  | succ fuel ih =>
    intro n hmem
    rw [natDigitsGo] at hmem
    split at hmem
    · have := digitChar_mem n
      simp at hmem
      rw [← hmem] at this
      revert this
      decide
    · rcases List.mem_append.mp hmem with h | h
      · exact ih _ h
      · have := digitChar_mem (n % 10)
        simp at h
        rw [← h] at this
        revert this
        decide

/-- Printed integers contain no letter О. -/
theorem count_intChars (i : Int) : (intChars i).count 'О' = 0 := by
  unfold intChars natDigits
  split
  · rw [List.count_cons]
    simp [List.count_eq_zero.mpr (not_mem_natDigitsGo _ _)]
  · exact List.count_eq_zero.mpr (not_mem_natDigitsGo _ _)

/-- String version of `count_intChars`. -/
theorem countO_intStr (i : Int) : countO (intStr i) = 0 := count_intChars i

/-- `applyHPChange` preserves the О-measure (it only rewrites digit text
after the "HP: "/"Здоровье: " markers). -/
theorem countO_applyHPChange (sheet : String) (change : Int) (stats : CharacterStats) :
    countO (applyHPChange sheet change stats) = countO sheet := by
  unfold applyHPChange
  dsimp only
  apply countO_goReplacer
  intro pr hpr
  simp only [List.mem_cons, List.not_mem_nil, or_false] at hpr
  rcases hpr with h | h <;> subst h <;> simp [countO_append, countO_intStr]

/-- `applyXPChange` preserves the О-measure. -/
theorem countO_applyXPChange (sheet : String) (change : Int) :
    countO (applyXPChange sheet change) = countO sheet := by
  unfold applyXPChange
  dsimp only
  repeat' split
  all_goals first
    | rfl
    | (unfold goReplaceAll
       apply countO_goReplacer
       intro pr hpr
       simp only [List.mem_cons, List.not_mem_nil, or_false] at hpr
       subst hpr
       simp [countO_append, countO_intStr])

/-- `applyStatChange` preserves the О-measure (pattern and replacement
share the stat name and differ only in digits). -/
theorem countO_applyStatChange (sheet : String) (stat : String) (change : Int) :
    countO (applyStatChange sheet stat change) = countO sheet := by
  unfold applyStatChange
  dsimp only
  repeat' split
  all_goals first
    | rfl
    | (unfold goReplaceAll
       apply countO_goReplacer
       intro pr hpr
       simp only [List.mem_cons, List.not_mem_nil, or_false] at hpr
       subst hpr
       simp [countO_append, countO_intStr])

/-- Character counts after an insertion. -/
theorem count_insertAt (s : List Char) (i : Nat) (ins : List Char) (c0 : Char) :
    (insertAt s i ins).count c0 = s.count c0 + ins.count c0 := by
  unfold insertAt
  rw [List.count_append, List.count_append]
  conv_rhs => rw [← List.take_append_drop i s, List.count_append]
  omega

/-- Adding a skill never decreases the О-measure. -/
theorem countO_addSkillToSheet (sheet skill : String) :
    countO sheet ≤ countO (addSkillToSheet sheet skill) := by
  unfold addSkillToSheet
  dsimp only
  split
  · unfold countO
    dsimp only
    rw [count_insertAt]
    omega
  · exact le_refl _

/-- Adding a condition never decreases the О-measure. -/
theorem countO_addConditionToSheet (sheet condition : String) :
    countO sheet ≤ countO (addConditionToSheet sheet condition) := by
  unfold addConditionToSheet
  dsimp only
  repeat' split
  all_goals first
    | exact le_refl _
    | (unfold countO
       dsimp only
       rw [count_insertAt]
       omega)

/-- The stat-changes fold preserves the О-measure of the sheet. -/
theorem countO_statsFold (l : List (String × Int)) (init : String × List String) :
    countO (l.foldl (fun pr sc => (applyStatChange pr.1 sc.1 sc.2,
      pr.2 ++ [sc.1 ++ " changed by " ++ intStr sc.2])) init).1 = countO init.1 := by
  induction l generalizing init with
  | nil => rfl
  | cons a t ih =>
    rw [List.foldl_cons, ih]
    dsimp only
    rw [countO_applyStatChange]

/-- The skills fold never decreases the О-measure of the sheet. -/
theorem countO_skillsFold (l : List String) (init : String × List String) :
    countO init.1 ≤ countO (l.foldl (fun pr sk => (addSkillToSheet pr.1 sk,
      pr.2 ++ ["Added skill: " ++ sk])) init).1 := by
  induction l generalizing init with
  | nil => exact le_refl _
  | cons a t ih =>
    rw [List.foldl_cons]
    refine le_trans (countO_addSkillToSheet init.1 a) ?_
    exact ih (addSkillToSheet init.1 a, init.2 ++ ["Added skill: " ++ a])

/-- The conditions fold never decreases the О-measure of the sheet. -/
theorem countO_condFold (l : List String) (init : String × List String) :
    countO init.1 ≤ countO (l.foldl (fun pr c => (addConditionToSheet pr.1 c,
      pr.2 ++ ["Condition added: " ++ c])) init).1 := by
  induction l generalizing init with
  | nil => exact le_refl _
  | cons a t ih =>
    rw [List.foldl_cons]
    refine le_trans (countO_addConditionToSheet init.1 a) ?_
    exact ih (addConditionToSheet init.1 a, init.2 ++ ["Condition added: " ++ a])

/-- The HP stage of `ApplyCharacterUpdate` preserves the О-measure. -/
theorem countO_hpStage (sheet : String) (c : Int) (stats : CharacterStats)
    (w : List String) :
    countO (if c ≠ 0 then (applyHPChange sheet c stats, w)
      else (sheet, ([] : List String))).1 = countO sheet := by
  split
  · dsimp only
    exact countO_applyHPChange _ _ _
  · rfl

/-- The max-HP stage (a placeholder identity) preserves the О-measure. -/
theorem countO_maxStage (st : String × List String) (m : Int) :
    countO (if m ≠ 0 then (applyMaxHPChange st.1 m, st.2) else st).1 = countO st.1 := by
  split <;> rfl

/-- The XP stage preserves the О-measure. -/
theorem countO_xpStage (st : String × List String) (x : Int) :
    countO (if x ≠ 0 then (applyXPChange st.1 x,
      st.2 ++ ["Character gained " ++ intStr x ++ " XP"]) else st).1 = countO st.1 := by
  split
  · dsimp only
    exact countO_applyXPChange _ _
  · rfl

/-- The footer contributes one О more than the input sheet can lose: every
`ApplyCharacterUpdate` result carries a strictly larger О-measure. -/
theorem countO_ApplyCharacterUpdate_ge (sheet : String) (u : CharacterUpdate)
    (now : String) :
    countO sheet + 1 ≤ countO (ApplyCharacterUpdate sheet u now).1 := by
  unfold ApplyCharacterUpdate
  dsimp only
  rw [countO_append, countO_append, countO_append]
  have hlit : countO "\n\n*(Обновлено: " = 1 := by decide
  have hpar : countO ")*" = 0 := by decide
  rw [hlit, hpar]
  have key : ∀ Y : String × List String, countO sheet ≤ countO Y.1 →
      countO sheet + 1 ≤ countO Y.1 + 1 + countO now + 0 := by
    intro Y h
    omega
  refine key _ ?_
  refine le_trans ?_ (countO_condFold _ _)
  refine le_trans ?_ (countO_skillsFold _ _)
  rw [countO_statsFold, countO_xpStage, countO_maxStage, countO_hpStage]

/-! Claim theorems. -/

/-- C1: the XP-ledger invariant fails at the first XP-awarding transition
boundary.  After `ProcessInput "Иван"` (Name → Race) and `ProcessInput
"бросить"` with d100 roll 50 (Race → Career), `TotalXP` is 20 while the sum
of the XP-source fields `XPFromRace + XPFromStats + XPFromCareer - XPSpent`
is 0: the race award is stored only in `RaceBonusXP`, and `XPFromRace` /
`XPFromCareer` are never written anywhere in the source, even though the
generated character sheet prints them as the rows of its XP table against
the `TotalXP` total row. -/
theorem c1_xp_ledger_broken_after_race_roll :
    c1Step2.cc.Data.TotalXP = 20 ∧
    c1Step2.cc.Data.XPFromRace + c1Step2.cc.Data.XPFromStats +
      c1Step2.cc.Data.XPFromCareer - c1Step2.cc.Data.XPSpent = 0 ∧
    c1Step2.cc.State = CC_Career := by decide

/-- C2 counterexample: `Session.ProcessInput` contains no state guard at
all.  Called on a Paused session it does not return the typed "not active"
error: it succeeds, mutates the session (state ends Active, `LastActivity`
is overwritten) and makes exactly one LLM call. -/
theorem c2_counterexample_paused_session_processes :
    pausedSession.State = StatePaused ∧
    exceptIsOk (pausedSession.ProcessInput 100 llmOkStub {}).1 = true ∧
    (pausedSession.ProcessInput 100 llmOkStub {}).2.1.State = StateActive ∧
    (pausedSession.ProcessInput 100 llmOkStub {}).2.1.LastActivity = 100 ∧
    (pausedSession.ProcessInput 100 llmOkStub {}).2.2.length = 1 := by decide

/-- C2 (amended): the "not active" rejection lives one layer up, in
`SessionManager.ProcessPlayerMessage`: for a registered session in any
state other than Active it returns the typed "session ... is not active"
error, leaves the registry (hence the session) unchanged, and sends no LLM
prompt; `Session.ProcessInput` itself is never invoked. -/
theorem c2_manager_rejects_inactive_session (sessions : List (Int × Session))
    (chatID : Int) (playerID text : String) (now : Int)
    (llm : String → Except String String) (s : Session)
    (hfind : SessionManager.GetSession sessions chatID = some s)
    (hstate : s.State ≠ StateActive) :
    SessionManager.ProcessPlayerMessage sessions chatID playerID text now llm
      = (.error ("session " ++ s.ID ++ " is not active"), sessions, []) := by
  have hia : s.IsActive = false := by
    unfold Session.IsActive
    cases hs : s.State == StateActive
    · rfl
    · exact absurd (by simpa using hs) hstate
  unfold SessionManager.ProcessPlayerMessage
  rw [hfind]
  simp [hia]

/-- Witness for the amended C2 theorem at a concrete paused session. -/
theorem c2_manager_rejects_inactive_session_witness :
    SessionManager.ProcessPlayerMessage [((7 : Int), pausedSession)] 7 "p1" "привет" 5
        (fun _ => .ok "ответ")
      = (.error ("session " ++ pausedSession.ID ++ " is not active"),
         [((7 : Int), pausedSession)], []) :=
  c2_manager_rejects_inactive_session [((7 : Int), pausedSession)] 7 "p1" "привет" 5
    (fun _ => .ok "ответ") pausedSession (by rfl) (by decide)

/-- C3: input classified as a question never changes the FSM state: the
question branch of `ProcessInput` calls `processLLMQuestion`, which leaves
the creator untouched, and the only branch checked earlier — name
generation in the Name state — also never changes the state. -/
theorem c3_question_never_changes_state (cc : CharacterCreator) (input : String)
    (rnd : RandSrc) (llm : LLMProviderO) (h : IsLLMQuestion input = true) :
    (cc.ProcessInput input rnd llm).cc.State = cc.State := by
  unfold CharacterCreator.ProcessInput
  cases hb : (cc.State == CC_Name && isGenNameCommand (goLower (goTrimSpace input)))
  · simp [hb, h]
  · rcases hg : generateName cc.Data llm with ⟨msg, ok, d2, calls⟩
    simp [hb, hg]

/-- Witness for C3 at a concrete question in the Race state. -/
theorem c3_question_never_changes_state_witness :
    ((⟨CC_Race, freshData⟩ : CharacterCreator).ProcessInput "что такое раса?"
        rndZero none).cc.State = (⟨CC_Race, freshData⟩ : CharacterCreator).State :=
  c3_question_never_changes_state ⟨CC_Race, freshData⟩ "что такое раса?" rndZero none
    (by decide)

/-- C4: the Career-state XP awards.  Option 1 adds 100 XP to `TotalXP`
(the `CareerXP = 50` award is added twice: once inside `case 1` and once on
the shared line after the `switch`), while the stored `CareerXP` and the
printed message still say 50.  Option 2 adds nothing at that turn: it sets
`CareerXP = 25`, returns before the shared add, and stays in the Career
state.  Option 3 adds nothing, matching its menu text. -/
theorem c4_career_xp_awards_mismatch (d : CharacterCreationData) (r : Fin 100)
    (sub : Fin 3) (a b c : Fin 100) (e f g : Fin 3) :
    ((processCareer d "1" r sub a b c e f g).cc.Data.TotalXP = d.TotalXP + 100 ∧
     (processCareer d "1" r sub a b c e f g).cc.Data.CareerXP = 50 ∧
     (processCareer d "1" r sub a b c e f g).cc.State = CC_Stats) ∧
    ((processCareer d "2" r sub a b c e f g).cc.Data.TotalXP = d.TotalXP ∧
     (processCareer d "2" r sub a b c e f g).cc.Data.CareerXP = 25 ∧
     (processCareer d "2" r sub a b c e f g).cc.State = CC_Career) ∧
    ((processCareer d "3" r sub a b c e f g).cc.Data.TotalXP = d.TotalXP ∧
     (processCareer d "3" r sub a b c e f g).cc.Data.CareerXP = 0 ∧
     (processCareer d "3" r sub a b c e f g).cc.State = CC_Stats) := by
  have h1 : goAtoi (goTrimSpace "1") = some 1 := by decide
  have h2 : goAtoi (goTrimSpace "2") = some 2 := by decide
  have h3 : goAtoi (goTrimSpace "3") = some 3 := by decide
  refine ⟨⟨?_, ?_, ?_⟩, ⟨?_, ?_, ?_⟩, ⟨?_, ?_, ?_⟩⟩ <;>
    simp [processCareer, h1, h2, h3, getRandomCareer] <;> omega

/-- Witness for C4 on fresh data with all oracle draws at zero. -/
theorem c4_career_xp_awards_mismatch_witness :
    (processCareer freshData "1" ⟨0, by decide⟩ ⟨0, by decide⟩ ⟨0, by decide⟩
        ⟨0, by decide⟩ ⟨0, by decide⟩ ⟨0, by decide⟩ ⟨0, by decide⟩
        ⟨0, by decide⟩).cc.Data.TotalXP = freshData.TotalXP + 100 :=
  (c4_career_xp_awards_mismatch freshData ⟨0, by decide⟩ ⟨0, by decide⟩ ⟨0, by decide⟩
    ⟨0, by decide⟩ ⟨0, by decide⟩ ⟨0, by decide⟩ ⟨0, by decide⟩ ⟨0, by decide⟩).1.1

/-- C5: evaluating the code at the spec's own scenario.  On the sheet
"HP: 10" with `HPChange = -15` (MaxHP 10 in the scenario), the returned
sheet still reads "HP: 10" — not the claimed clamped "HP: 0" — because
`ParseCharacterStats` scans HP with the malformed format "*%*HP: %d" (see
`goSscanfBadVerb`), so `CurrentHP = MaxHP = 0` always and `applyHPChange`
rewrites the absent substring "HP: 0".  Moreover the XP on a sheet can
decrease: `ApplyCharacterUpdate` applies a negative `XPChange` unchecked —
the `ValidateUpdate` rule "Cannot lose XP" exists but is never called. -/
theorem c5_hp_clamp_and_xp_guard_broken :
    (ApplyCharacterUpdate "HP: 10" { HPChange := -15 } "12:00:00").1
      = "HP: 10\n\n*(Обновлено: 12:00:00)*" ∧
    containsS (ApplyCharacterUpdate "HP: 10" { HPChange := -15 } "12:00:00").1 "HP: 0"
      = false ∧
    (ParseCharacterStats "HP: 10").CurrentHP = 0 ∧
    (ParseCharacterStats "HP: 10").MaxHP = 0 ∧
    ValidateUpdate { XPChange := -5 } none = ["Cannot lose XP"] ∧
    (ApplyCharacterUpdate "XP: 10" { XPChange := -5 } "12:00:00").1
      = "XP: 5\n\n*(Обновлено: 12:00:00)*" := by decide

/-- C6 counterexample: with status level 1 (career option 1) and money draw
0 the Stats step sets `Money = 2`, but a 2d10 roll plus twice the status
level is at least 4 — no pair of d10 values can produce the code's value,
because the code computes `rand.Intn 10 * 2 + StatusLevel * 2`, not
`2d10 + 2 × status`. -/
theorem c6_counterexample_money_not_2d10 :
    c6Res.cc.Data.StatusLevel = 1 ∧ c6Res.cc.Data.Money = 2 ∧
    ¬ ∃ a b : Fin 10,
      ((a.val : Int) + 1) + ((b.val : Int) + 1) + 2 * c6Res.cc.Data.StatusLevel
        = c6Res.cc.Data.Money := by decide

/-- C6 (amended): after rolling characteristics in the Stats state (options
1 and 2), HP equals `S/10 + 2*(T/10) + WP/10` in Go integer division — the
rolled values are non-negative, so this is exactly the claimed floor
formula — and Money equals twice the `rand.Intn 10` draw (an even value in
0..18) plus twice the status level, not a 2d10 roll. -/
theorem c6_secondary_stats_formulas (d : CharacterCreationData)
    (g : Fin 20 → Fin 10) (m : Fin 10) :
    ((processStats d "1" g m).cc.Data.HP
        = goDiv (processStats d "1" g m).cc.Data.S 10 +
          2 * goDiv (processStats d "1" g m).cc.Data.T 10 +
          goDiv (processStats d "1" g m).cc.Data.WP 10 ∧
      0 ≤ (processStats d "1" g m).cc.Data.S ∧
      0 ≤ (processStats d "1" g m).cc.Data.T ∧
      0 ≤ (processStats d "1" g m).cc.Data.WP ∧
      (processStats d "1" g m).cc.Data.Money
        = (m.val : Int) * 2 + (processStats d "1" g m).cc.Data.StatusLevel * 2) ∧
    ((processStats d "2" g m).cc.Data.HP
        = goDiv (processStats d "2" g m).cc.Data.S 10 +
          2 * goDiv (processStats d "2" g m).cc.Data.T 10 +
          goDiv (processStats d "2" g m).cc.Data.WP 10 ∧
      (processStats d "2" g m).cc.Data.Money
        = (m.val : Int) * 2 + (processStats d "2" g m).cc.Data.StatusLevel * 2) := by
  have h1 : goAtoi (goTrimSpace "1") = some 1 := by decide
  have h2 : goAtoi (goTrimSpace "2") = some 2 := by decide
  have hb := rollStatsBonus_nonneg d.Race
  refine ⟨⟨?_, ?_, ?_, ?_, ?_⟩, ⟨?_, ?_⟩⟩ <;>
    simp [processStats, h1, h2, processStatsTail, calculateSecondaryStats, rollStats] <;>
    omega

/-- Witness for the amended C6 theorem on the concrete Stats fixture. -/
theorem c6_secondary_stats_formulas_witness :
    (processStats c6AfterCareer.cc.Data "1" (fun _ => ⟨0, by decide⟩)
        ⟨0, by decide⟩).cc.Data.Money
      = ((0 : Nat) : Int) * 2 +
        (processStats c6AfterCareer.cc.Data "1" (fun _ => ⟨0, by decide⟩)
          ⟨0, by decide⟩).cc.Data.StatusLevel * 2 :=
  (c6_secondary_stats_formulas c6AfterCareer.cc.Data (fun _ => ⟨0, by decide⟩)
    ⟨0, by decide⟩).1.2.2.2.2

/-- C7: the Race-state random roll.  With d100 = 50 the race is "Человек",
the race bonus is 20 XP and the state advances to Career; d100 = 97 gives
"Гном"; d100 = 100 gives "Лесной эльф"; and every random-roll path sets
`RaceBonusXP = 20` and adds exactly 20 to `TotalXP`. -/
theorem c7_race_roll_buckets_and_bonus (d : CharacterCreationData) :
    (processRace d "бросить" ⟨49, by decide⟩).cc.Data.Race = "Человек" ∧
    (processRace d "бросить" ⟨49, by decide⟩).cc.Data.RaceBonusXP = 20 ∧
    (processRace d "бросить" ⟨49, by decide⟩).cc.State = CC_Career ∧
    (processRace d "бросить" ⟨96, by decide⟩).cc.Data.Race = "Гном" ∧
    (processRace d "бросить" ⟨99, by decide⟩).cc.Data.Race = "Лесной эльф" ∧
    ∀ roll : Fin 100,
      (processRace d "бросить" roll).cc.Data.RaceBonusXP = 20 ∧
      (processRace d "бросить" roll).cc.Data.TotalXP = d.TotalXP + 20 := by
  have hin : goTrimSpace (goLower "бросить") = "бросить" := by decide
  refine ⟨?_, ?_, ?_, ?_, ?_, ?_⟩ <;>
    simp [processRace, hin, applyRaceBonuses_Race, applyRaceBonuses_RaceBonusXP,
      applyRaceBonuses_TotalXP]

/-- Witness for C7 on fresh data. -/
theorem c7_race_roll_buckets_and_bonus_witness :
    (processRace freshData "бросить" ⟨49, by decide⟩).cc.Data.Race = "Человек" :=
  (c7_race_roll_buckets_and_bonus freshData).1

/-- C8: one watchdog tick — `checkInputsLoop` runs `checkTimeout` every
second, independently of the input path — stops any session whose
`LastActivity` lies more than thirty minutes in the past: the lifetime
context is cancelled and the state transitions to Idle.  No LLM call
appears anywhere in the tick, and the timeout path touches nothing else
(`LastActivity` is left as it was). -/
theorem c8_watchdog_stops_inactive_session (s : Session) (now : Int)
    (h : now - s.LastActivity > sessionTimeoutNs) :
    (s.checkInputsTick now).State = StateIdle ∧
    (s.checkInputsTick now).ctxCancelled = true ∧
    (s.checkInputsTick now).LastActivity = s.LastActivity := by
  unfold Session.checkInputsTick Session.CheckInputs Session.checkTimeout Session.Stop
  simp [h]

/-- Witness for C8: a session inactive for just over thirty minutes. -/
theorem c8_watchdog_stops_inactive_session_witness :
    (Session.checkInputsTick { ID := "w", State := StateActive, LastActivity := 0 }
        (sessionTimeoutNs + 1)).State = StateIdle :=
  (c8_watchdog_stops_inactive_session
    { ID := "w", State := StateActive, LastActivity := 0 }
    (sessionTimeoutNs + 1) (by decide)).1

/-- C9: every `ApplyCharacterUpdate` call appends the
"*(Обновлено: HH:MM:SS)*" footer — for the all-zero update the result is
exactly the input sheet plus the footer — and for every sheet, update and
clock value the result is never byte-equal to the input: the О-measure
(`countO`) of the result strictly exceeds that of the input sheet. -/
theorem c9_footer_always_appended :
    (∀ sheet now : String, (ApplyCharacterUpdate sheet emptyUpdate now).1
        = sheet ++ "\n\n*(Обновлено: " ++ now ++ ")*") ∧
    ∀ (sheet : String) (u : CharacterUpdate) (now : String),
      (ApplyCharacterUpdate sheet u now).1 ≠ sheet := by
  constructor
  · intro sheet now
    simp [ApplyCharacterUpdate, emptyUpdate]
  · intro sheet u now heq
    have h := countO_ApplyCharacterUpdate_ge sheet u now
    rw [heq] at h
    omega

/-- Witness for C9 at a concrete sheet and update. -/
theorem c9_footer_always_appended_witness :
    (ApplyCharacterUpdate "HP: 10" { HPChange := -15 } "12:00:00").1 ≠ "HP: 10" :=
  c9_footer_always_appended.2 "HP: 10" { HPChange := -15 } "12:00:00"

/-- C10 counterexample: in the Name state the generate-command check runs
before the question check, so the input "Сгенери как" — which
`IsLLMQuestion` classifies as a question (it contains "как") — is not
routed to the Q&A path: the single LLM call made is the name-generation
prompt, the generated name is stored into the data, and the reply differs
from the Q&A reply. -/
theorem c10_counterexample_gen_command_beats_question :
    IsLLMQuestion "Сгенери как" = true ∧
    ((⟨CC_Name, freshData⟩ : CharacterCreator).ProcessInput "Сгенери как" rndZero llmAld).calls
      = [nameGenPrompt] ∧
    ((⟨CC_Name, freshData⟩ : CharacterCreator).ProcessInput "Сгенери как" rndZero llmAld).cc.Data.Name
      = "Альдрик" ∧
    ((⟨CC_Name, freshData⟩ : CharacterCreator).ProcessInput "Сгенери как" rndZero llmAld).message
      ≠ (processLLMQuestion CC_Name "Сгенери как" llmAld).1 := by decide

/-- C10 (amended): any input containing a question marker is routed to the
LLM Q&A path — its reply and LLM calls are exactly those of
`processLLMQuestion` and the creator (state and data) is left unchanged —
except in the Name state when the input also matches the generate-name
command, which takes precedence; in that exceptional branch the state still
does not advance. -/
theorem c10_question_routing_with_name_exception (cc : CharacterCreator)
    (input : String) (rnd : RandSrc) (llm : LLMProviderO)
    (hq : IsLLMQuestion input = true)
    (hng : cc.State = CC_Name → isGenNameCommand (goLower (goTrimSpace input)) = false) :
    (cc.ProcessInput input rnd llm).message = (processLLMQuestion cc.State input llm).1 ∧
    (cc.ProcessInput input rnd llm).calls = (processLLMQuestion cc.State input llm).2.2 ∧
    (cc.ProcessInput input rnd llm).cc = cc := by
  have hb : (cc.State == CC_Name && isGenNameCommand (goLower (goTrimSpace input))) = false := by
    cases hcc : cc.State == CC_Name
    · rfl
    · simp [hng (by simpa using hcc)]
  unfold CharacterCreator.ProcessInput
  rcases hp : processLLMQuestion cc.State input llm with ⟨msg, ok, calls⟩
  simp [hb, hq, hp]

/-- Witness for the amended C10 theorem at a concrete question in the
Career state. -/
theorem c10_question_routing_with_name_exception_witness :
    ((⟨CC_Career, freshData⟩ : CharacterCreator).ProcessInput "объясни правила"
        rndZero none).message
      = (processLLMQuestion (⟨CC_Career, freshData⟩ : CharacterCreator).State
          "объясни правила" none).1 :=
  (c10_question_routing_with_name_exception ⟨CC_Career, freshData⟩ "объясни правила"
    rndZero none (by decide) (by intro h; exact absurd h (by decide))).1
